import Mathlib

/-!
# open_agb_firm: (e)MMC/SD driver interface and INI configuration callback

A shallow embedding of

* `libn3ds/include/drivers/mmc/sdmmc.h`: the error codes, device numbers,
  write-protect bits and the `SdmmcInfo` record, together with the driver entry
  points the header declares;
* `source/arm11/config.c`: the default configuration, `findButton`,
  `parseButtons` and `cfgIniCallback`.

Machine integers are natural numbers (or integers where the C type is signed)
with explicit wrap-around where a conversion happens.  A C string is the list
of its bytes before the terminating NUL; a `char *` that may be `NULL` is an
`Option` of such a list.
-/

set_option autoImplicit false

namespace OpenAgbFirm

/-! ## sdmmc.h: constants -/

/-- No error. -/
def SDMMC_ERR_NONE : Nat := 0
/-- Invalid parameter. -/
def SDMMC_ERR_INVAL_PARAM : Nat := 1
/-- The device is already initialized. -/
def SDMMC_ERR_INITIALIZED : Nat := 2
/-- GO_IDLE_STATE CMD error. -/
def SDMMC_ERR_GO_IDLE_STATE : Nat := 3
/-- SEND_IF_COND CMD error. -/
def SDMMC_ERR_SEND_IF_COND : Nat := 4
/-- IF_COND response pattern mismatch or unsupported voltage. -/
def SDMMC_ERR_IF_COND_RESP : Nat := 5
/-- SEND_OP_COND CMD error. -/
def SDMMC_ERR_SEND_OP_COND : Nat := 6
/-- Card initialization timeout. -/
def SDMMC_ERR_OP_COND_TMOUT : Nat := 7
/-- Voltage not supported. -/
def SDMMC_ERR_VOLT_SUPPORT : Nat := 8
/-- ALL_SEND_CID CMD error. -/
def SDMMC_ERR_ALL_SEND_CID : Nat := 9
/-- SET/SEND_RELATIVE_ADDR CMD error. -/
def SDMMC_ERR_SET_SEND_RCA : Nat := 10
/-- SEND_CSD CMD error. -/
def SDMMC_ERR_SEND_CSD : Nat := 11
/-- SELECT_CARD CMD error. -/
def SDMMC_ERR_SELECT_CARD : Nat := 12
/-- Card is locked with a password. -/
def SDMMC_ERR_LOCKED : Nat := 13
/-- SEND_EXT_CSD CMD error. -/
def SDMMC_ERR_SEND_EXT_CSD : Nat := 14
/-- Error on switching to high speed mode. -/
def SDMMC_ERR_SWITCH_HS : Nat := 15
/-- SET_CLR_CARD_DETECT CMD error. -/
def SDMMC_ERR_SET_CLR_CD : Nat := 16
/-- Error on switching to a different bus width. -/
def SDMMC_ERR_SET_BUS_WIDTH : Nat := 17
/-- SEND_STATUS CMD error. -/
def SDMMC_ERR_SEND_STATUS : Nat := 18
/-- The card returned an error via its status. -/
def SDMMC_ERR_CARD_STATUS : Nat := 19
/-- Card unitialized or not inserted. -/
def SDMMC_ERR_NO_CARD : Nat := 20
/-- Sector read/write error. -/
def SDMMC_ERR_SECT_RW : Nat := 21
/-- The card is write protected. -/
def SDMMC_ERR_WRITE_PROT : Nat := 22

/-- The error enum of the header, in declaration order, each enumerator with
its name and value. -/
def sdmmcErrTable : List (String × Nat) :=
  [ ("SDMMC_ERR_NONE", SDMMC_ERR_NONE),
    ("SDMMC_ERR_INVAL_PARAM", SDMMC_ERR_INVAL_PARAM),
    ("SDMMC_ERR_INITIALIZED", SDMMC_ERR_INITIALIZED),
    ("SDMMC_ERR_GO_IDLE_STATE", SDMMC_ERR_GO_IDLE_STATE),
    ("SDMMC_ERR_SEND_IF_COND", SDMMC_ERR_SEND_IF_COND),
    ("SDMMC_ERR_IF_COND_RESP", SDMMC_ERR_IF_COND_RESP),
    ("SDMMC_ERR_SEND_OP_COND", SDMMC_ERR_SEND_OP_COND),
    ("SDMMC_ERR_OP_COND_TMOUT", SDMMC_ERR_OP_COND_TMOUT),
    ("SDMMC_ERR_VOLT_SUPPORT", SDMMC_ERR_VOLT_SUPPORT),
    ("SDMMC_ERR_ALL_SEND_CID", SDMMC_ERR_ALL_SEND_CID),
    ("SDMMC_ERR_SET_SEND_RCA", SDMMC_ERR_SET_SEND_RCA),
    ("SDMMC_ERR_SEND_CSD", SDMMC_ERR_SEND_CSD),
    ("SDMMC_ERR_SELECT_CARD", SDMMC_ERR_SELECT_CARD),
    ("SDMMC_ERR_LOCKED", SDMMC_ERR_LOCKED),
    ("SDMMC_ERR_SEND_EXT_CSD", SDMMC_ERR_SEND_EXT_CSD),
    ("SDMMC_ERR_SWITCH_HS", SDMMC_ERR_SWITCH_HS),
    ("SDMMC_ERR_SET_CLR_CD", SDMMC_ERR_SET_CLR_CD),
    ("SDMMC_ERR_SET_BUS_WIDTH", SDMMC_ERR_SET_BUS_WIDTH),
    ("SDMMC_ERR_SEND_STATUS", SDMMC_ERR_SEND_STATUS),
    ("SDMMC_ERR_CARD_STATUS", SDMMC_ERR_CARD_STATUS),
    ("SDMMC_ERR_NO_CARD", SDMMC_ERR_NO_CARD),
    ("SDMMC_ERR_SECT_RW", SDMMC_ERR_SECT_RW),
    ("SDMMC_ERR_WRITE_PROT", SDMMC_ERR_WRITE_PROT) ]

/-- SD card/MMC. -/
def SDMMC_DEV_CARD : Nat := 0
/-- Builtin eMMC. -/
def SDMMC_DEV_eMMC : Nat := 1
/-- Alias for internal use only. -/
def SDMMC_MAX_DEV_NUM : Nat := SDMMC_DEV_eMMC

/-- SD card write protection slider: `(1u)`. -/
def SDMMC_WR_PROT_SLIDER : Nat := 1
/-- Temporary write protection (CSD): `(1u<<1)`. -/
def SDMMC_WR_PROT_TEMP : Nat := 1 <<< 1
/-- Permanent write protection (CSD): `(1u<<2)`. -/
def SDMMC_WR_PROT_PERM : Nat := 1 <<< 2

/-- The record `SdmmcInfo` of the header.  `type`: 0 = none, 1 = (e)MMC,
2 = high capacity (e)MMC, 3 = SDSC, 4 = SDHC/SDXC, 5 = SDUC. -/
structure SdmmcInfo where
  type : Nat
  wrProt : Nat
  rca : Nat
  sectors : Nat
  clock : Nat
  cid : List Nat
  ccc : Nat
  busWidth : Nat
  deriving DecidableEq, Repr

/-! ## The driver behind sdmmc.h

The header only declares the entry points; their bodies are not part of the
sources at hand and are modelled from the specification. -/

/-- Modelled from the spec: the all-zero slot ("A slot is either entirely
absent (all fields zeroed) or initialized"); the driver source that owns the
slot table is missing. -/
def absentSlot : SdmmcInfo :=
  { type := 0, wrProt := 0, rca := 0, sectors := 0, clock := 0,
    cid := [0, 0, 0, 0], ccc := 0, busWidth := 0 }

/-- Modelled from the spec: the process-wide table of device slots, "two
entries: removable card, embedded eMMC"; the driver source is missing. -/
structure SdmmcState where
  card : SdmmcInfo
  emmc : SdmmcInfo
  deriving DecidableEq, Repr

/-- Modelled from the spec: the slot keyed by a device number (0 = removable
card, 1 = embedded eMMC); the driver source is missing. -/
def SdmmcState.slot (st : SdmmcState) (devNum : Nat) : SdmmcInfo :=
  if devNum = SDMMC_DEV_CARD then st.card else st.emmc

/-- Modelled from the spec: replacing the slot of a device number; the driver
source is missing. -/
def SdmmcState.setSlot (st : SdmmcState) (devNum : Nat) (info : SdmmcInfo) : SdmmcState :=
  if devNum = SDMMC_DEV_CARD then { st with card := info } else { st with emmc := info }

/-- Modelled from the spec: the card variants that initialization can select
(§2: "eMMC, high-capacity eMMC, SDSC, SDHC/SDXC, SDUC"); the driver source is
missing. -/
inductive CardKind where
  | mmc
  | mmcHc
  | sdsc
  | sdhc
  | sduc
  deriving DecidableEq, Repr

/-- Modelled from the spec: the `type` code of a card variant, as listed in
the header comment on `SdmmcInfo.type`. -/
def CardKind.code : CardKind → Nat
  | .mmc => 1
  | .mmcHc => 2
  | .sdsc => 3
  | .sdhc => 4
  | .sduc => 5

/-- Modelled from the spec: the causes for which the initialization sequence
of §4.2/§4.3 fails ("Each step has an error code associated with its
failure"); the driver source is missing. -/
inductive InitFailure where
  | noCard
  | goIdleState
  | sendIfCond
  | ifCondResp
  | sendOpCond
  | opCondTmout
  | voltSupport
  | allSendCid
  | setSendRca
  | sendCsd
  | selectCard
  | locked
  | sendExtCsd
  | switchHs
  | setClrCd
  | setBusWidth
  | sendStatus
  | cardStatus
  deriving DecidableEq, Repr

/-- Modelled from the spec: the error code returned for each failure cause. -/
def InitFailure.code : InitFailure → Nat
  | .noCard => SDMMC_ERR_NO_CARD
  | .goIdleState => SDMMC_ERR_GO_IDLE_STATE
  | .sendIfCond => SDMMC_ERR_SEND_IF_COND
  | .ifCondResp => SDMMC_ERR_IF_COND_RESP
  | .sendOpCond => SDMMC_ERR_SEND_OP_COND
  | .opCondTmout => SDMMC_ERR_OP_COND_TMOUT
  | .voltSupport => SDMMC_ERR_VOLT_SUPPORT
  | .allSendCid => SDMMC_ERR_ALL_SEND_CID
  | .setSendRca => SDMMC_ERR_SET_SEND_RCA
  | .sendCsd => SDMMC_ERR_SEND_CSD
  | .selectCard => SDMMC_ERR_SELECT_CARD
  | .locked => SDMMC_ERR_LOCKED
  | .sendExtCsd => SDMMC_ERR_SEND_EXT_CSD
  | .switchHs => SDMMC_ERR_SWITCH_HS
  | .setClrCd => SDMMC_ERR_SET_CLR_CD
  | .setBusWidth => SDMMC_ERR_SET_BUS_WIDTH
  | .sendStatus => SDMMC_ERR_SEND_STATUS
  | .cardStatus => SDMMC_ERR_CARD_STATUS

/-- Modelled from the spec: what stages A to G of the initialization sequence
end with on the hardware at hand: the first error met, or the card variant and
the slot contents read from the card. -/
inductive InitOutcome where
  | failed (cause : InitFailure)
  | ready (kind : CardKind) (info : SdmmcInfo)

/-- Modelled from the spec: a block transfer handed to the controller
primitive (§4.4): direction, device, start sector and block count. -/
structure IoRequest where
  write : Bool
  devNum : Nat
  sect : Nat
  count : Nat
  deriving DecidableEq, Repr

/-- Modelled from the spec: the controller primitive and the card behind it
(§4.1, an external collaborator).  `probe` is the outcome of the
initialization sequence on a device, `slider` the write-protect slider pin,
and `transfer` the status with which a block transfer on a card of the given
kind ends (address translation, command issue, status check and retry of
§4.4). -/
structure Controller where
  probe : Nat → InitOutcome
  slider : Nat → Bool
  transfer : Nat → IoRequest → Nat

/-- Modelled from the spec: `SDMMC_init`, whose body is missing.  "Valid
devNum ∈ {0,1}; else INVAL_PARAM"; the slot is "guarded against re-entry by
checking the kind field"; "On any failure, controller is reset, slot is
zeroed, and the first error encountered is returned". -/
def SDMMC_init (hw : Controller) (st : SdmmcState) (devNum : Nat) : Nat × SdmmcState :=
  if devNum > SDMMC_MAX_DEV_NUM then (SDMMC_ERR_INVAL_PARAM, st)
  else if (st.slot devNum).type ≠ 0 then (SDMMC_ERR_INITIALIZED, st)
  else
    match hw.probe devNum with
    | .failed cause => (cause.code, st.setSlot devNum absentSlot)
    | .ready kind info => (SDMMC_ERR_NONE, st.setSlot devNum { info with type := kind.code })

/-- Modelled from the spec: `SDMMC_deinit`, whose body is missing.  "zeroes
the slot; safe to call on an already-absent slot (returns NONE)"; the header
gives INVAL_PARAM as its failure. -/
def SDMMC_deinit (st : SdmmcState) (devNum : Nat) : Nat × SdmmcState :=
  if devNum > SDMMC_MAX_DEV_NUM then (SDMMC_ERR_INVAL_PARAM, st)
  else (SDMMC_ERR_NONE, st.setSlot devNum absentSlot)

/-- Modelled from the spec: `SDMMC_getDevInfo`, whose body is missing.  "fills
the full slot descriptor"; the second component is what is stored through
`infoOut`, `none` when nothing is stored. -/
def SDMMC_getDevInfo (st : SdmmcState) (devNum : Nat) : Nat × Option SdmmcInfo :=
  if devNum > SDMMC_MAX_DEV_NUM then (SDMMC_ERR_INVAL_PARAM, none)
  else (SDMMC_ERR_NONE, some (st.slot devNum))

/-- Modelled from the spec: `SDMMC_getCid`, whose body is missing; the second
component is what is stored through `cidOut`, `none` when nothing is
stored. -/
def SDMMC_getCid (st : SdmmcState) (devNum : Nat) : Nat × Option (List Nat) :=
  if devNum > SDMMC_MAX_DEV_NUM then (SDMMC_ERR_INVAL_PARAM, none)
  else (SDMMC_ERR_NONE, some (st.slot devNum).cid)

/-- Modelled from the spec: `SDMMC_getWriteProtBits`, whose body is missing.
It "combines the CSD-derived bits with a fresh read of the slider pin via the
controller primitive; it returns all-ones on an uninitialized slot"; the
header gives 0xFF as its failure value. -/
def SDMMC_getWriteProtBits (hw : Controller) (st : SdmmcState) (devNum : Nat) : Nat :=
  if devNum > SDMMC_MAX_DEV_NUM then 0xFF
  else if (st.slot devNum).type = 0 then 0xFF
  else (st.slot devNum).wrProt ||| (if hw.slider devNum then SDMMC_WR_PROT_SLIDER else 0)

/-- Modelled from the spec: `SDMMC_getSectors`, whose body is missing.
"returns 0 on absent"; the header gives 0 as its failure value. -/
def SDMMC_getSectors (st : SdmmcState) (devNum : Nat) : Nat :=
  if devNum > SDMMC_MAX_DEV_NUM then 0
  else (st.slot devNum).sectors

/-- Modelled from the spec: `SDMMC_readSectors`, whose body is missing.  The
guards of §4.4 in the order the contract lists them: "Absent slot ⇒ NO_CARD.
count == 0 ⇒ INVAL_PARAM. Range overflow (start + count > sectorCount) ⇒
INVAL_PARAM."  The second component is the transfer handed to the controller
primitive, `none` when no command is issued. -/
def SDMMC_readSectors (hw : Controller) (st : SdmmcState) (devNum sect count : Nat) :
    Nat × Option IoRequest :=
  if devNum > SDMMC_MAX_DEV_NUM then (SDMMC_ERR_INVAL_PARAM, none)
  else if (st.slot devNum).type = 0 then (SDMMC_ERR_NO_CARD, none)
  else if count = 0 then (SDMMC_ERR_INVAL_PARAM, none)
  else if sect + count > (st.slot devNum).sectors then (SDMMC_ERR_INVAL_PARAM, none)
  else
    let rq : IoRequest := { write := false, devNum := devNum, sect := sect, count := count }
    (hw.transfer (st.slot devNum).type rq, some rq)

/-- Modelled from the spec: `SDMMC_writeSectors`, whose body is missing.  The
guards of §4.4 in the order the contract lists them: "Absent slot ⇒ NO_CARD.
count == 0 ⇒ INVAL_PARAM. Range overflow (start + count > sectorCount) ⇒
INVAL_PARAM. Write to a write-protected card (any bit in writeProtect set) ⇒
WRITE_PROT."  The second component is the transfer handed to the controller
primitive, `none` when no command is issued. -/
def SDMMC_writeSectors (hw : Controller) (st : SdmmcState) (devNum sect count : Nat) :
    Nat × Option IoRequest :=
  if devNum > SDMMC_MAX_DEV_NUM then (SDMMC_ERR_INVAL_PARAM, none)
  else if (st.slot devNum).type = 0 then (SDMMC_ERR_NO_CARD, none)
  else if count = 0 then (SDMMC_ERR_INVAL_PARAM, none)
  else if sect + count > (st.slot devNum).sectors then (SDMMC_ERR_INVAL_PARAM, none)
  else if (st.slot devNum).wrProt ≠ 0 then (SDMMC_ERR_WRITE_PROT, none)
  else
    let rq : IoRequest := { write := true, devNum := devNum, sect := sect, count := count }
    (hw.transfer (st.slot devNum).type rq, some rq)

/-! ## Sample hardware and states -/

/-- A controller with a healthy 1000-sector SDHC card in the card slot and no
eMMC answering: every transfer completes without error. -/
def sampleController : Controller :=
  { probe := fun devNum =>
      if devNum = SDMMC_DEV_CARD then
        .ready .sdhc { absentSlot with rca := 1, sectors := 1000, clock := 50000000, busWidth := 4 }
      else .failed .noCard
    slider := fun _ => false
    transfer := fun _ _ => SDMMC_ERR_NONE }

/-- The state with both slots absent. -/
def emptyState : SdmmcState :=
  { card := absentSlot, emmc := absentSlot }

/-- A state whose card slot holds an initialised 1000-sector SDHC card. -/
def sampleState : SdmmcState :=
  { card := { absentSlot with type := 4, rca := 1, sectors := 1000, clock := 50000000, busWidth := 4 }
    emmc := absentSlot }

/-- A state whose card slot holds an initialised 1000-sector SDHC card with
the permanent write-protect bit of its CSD set. -/
def protectedState : SdmmcState :=
  { card :=
      { absentSlot with
        type := 4, wrProt := SDMMC_WR_PROT_PERM, rca := 1, sectors := 1000,
        clock := 50000000, busWidth := 4 }
    emmc := absentSlot }

/-! ## C library functions used by config.c -/

/-- The C `strcmp`: zero for equal strings, otherwise the sign of the
difference of the first two bytes that differ (the end of a string counts as
the byte 0, below every other byte). -/
def strcmp : List Char → List Char → Int
  | [], [] => 0
  | [], _ :: _ => -1
  | _ :: _, [] => 1
  | a :: as, b :: bs => if a = b then strcmp as bs else if a.toNat < b.toNat then -1 else 1

/-- The C `strchr(s, c) != NULL` for a byte `c` other than NUL. -/
def strchrFound (s : List Char) (c : Char) : Bool :=
  s.elem c

/-- The C `isspace` in the "C" locale: space, and `\t \n \v \f \r`. -/
def isspace (c : Char) : Bool :=
  c.toNat = 32 || (9 ≤ c.toNat && c.toNat ≤ 13)

/-- The C `isdigit`. -/
def isdigit (c : Char) : Bool :=
  48 ≤ c.toNat && c.toNat ≤ 57

/-- `ULONG_MAX` on the 32-bit ARM target. -/
def ULONG_MAX : Nat := 0xFFFFFFFF
/-- `LONG_MAX` on the 32-bit ARM target. -/
def LONG_MAX : Int := 0x7FFFFFFF
/-- `LONG_MIN` on the 32-bit ARM target. -/
def LONG_MIN : Int := -0x80000000

/-- The value of the longest run of decimal digits a string starts with. -/
def digitsValue (s : List Char) : Nat :=
  (s.takeWhile isdigit).foldl (fun acc c => 10 * acc + (c.toNat - 48)) 0

/-- The part of a number string after white space, and whether a minus sign
was read. -/
def skipSpaceAndSign (nptr : List Char) : Bool × List Char :=
  match nptr.dropWhile isspace with
  | '-' :: r => (true, r)
  | '+' :: r => (false, r)
  | s => (false, s)

/-- The C `strtoul(nptr, NULL, 10)` with a 32-bit `unsigned long`: white space
is skipped, a sign is accepted, the digits are read; out of range gives
`ULONG_MAX`, a minus sign negates modulo 2^32, no digits give 0. -/
def strtoul (nptr : List Char) : Nat :=
  let (neg, s) := skipSpaceAndSign nptr
  let acc := digitsValue s
  if acc > ULONG_MAX then ULONG_MAX
  else if neg then (2 ^ 32 - acc) % 2 ^ 32
  else acc

/-- The C `strtol(nptr, NULL, 10)` with a 32-bit `long`: as `strtoul`, but out
of range gives `LONG_MIN` or `LONG_MAX`. -/
def strtol (nptr : List Char) : Int :=
  let (neg, s) := skipSpaceAndSign nptr
  let acc : Int := digitsValue s
  if neg then (if acc > -LONG_MIN then LONG_MIN else -acc)
  else (if acc > LONG_MAX then LONG_MAX else acc)

/-- The conversion `(u8)x`. -/
def toU8 (x : Nat) : Nat := x % 256

/-- The conversion `(s8)x` (wrap-around, as GCC defines it). -/
def toS8 (x : Int) : Int := (x + 128) % 256 - 128

/-- The conversion of a `u32` value to `int` (wrap-around, as GCC defines
it). -/
def toInt32 (x : Nat) : Int :=
  if x % 2 ^ 32 < 2 ^ 31 then ((x % 2 ^ 32 : Nat) : Int) else ((x % 2 ^ 32 : Nat) : Int) - 2 ^ 32

/-- The conversion of an `int` value to `u32`. -/
def toU32 (x : Int) : Nat := (x % 2 ^ 32).toNat

/-- The delimiter set `"+,"` handed to `strtok`. -/
def isDelim (c : Char) : Bool :=
  c = '+' || c = ','

/-- One call of the C `strtok` with the delimiters `"+,"`, on the text at the
saved position: leading delimiters are skipped; at the end of the text the
result is `NULL`; otherwise the token runs up to the next delimiter, which is
overwritten with NUL, and the saved position moves past it (or to the end of
the text).  Returns the token and the new saved position. -/
def strtok (save : List Char) : Option (List Char) × List Char :=
  match save.dropWhile isDelim with
  | [] => (none, [])
  | c :: cs =>
    (some ((c :: cs).takeWhile (fun x => !isDelim x)),
      ((c :: cs).dropWhile (fun x => !isDelim x)).drop 1)

/-- The GCC builtin `__builtin_clzl` on a 32-bit `unsigned long`, scanning
from bit `n - 1` downwards (undefined for 0 in C; 32 here). -/
def clzFrom : Nat → Nat → Nat
  | 0, _ => 0
  | n + 1, x => if x.testBit n then 0 else 1 + clzFrom n x

/-- The GCC builtin `__builtin_clzl` on a 32-bit `unsigned long`. -/
def builtin_clzl (x : Nat) : Nat :=
  clzFrom 32 x

/-! ## config.c -/

/-- The record `OafConfig`.  Its declaration (arm11/config.h) is not among the
sources; the fields and their order are those of the initialiser of
`g_oafConfig`, the widths those of the casts in `cfgIniCallback`.  The three
`float` fields hold IEEE-754 binary32 bit patterns. -/
structure OafConfig where
  backlight : Nat
  backlightSteps : Nat
  directBoot : Bool
  useGbaDb : Bool
  useSavesFolder : Bool
  scaler : Nat
  colorProfile : Nat
  contrast : Nat
  brightness : Nat
  saturation : Nat
  audioOut : Nat
  volume : Int
  buttonMaps : List Nat
  buttonComboMap : List Nat
  saveSlot : Nat
  saveType : Nat
  saveOverride : Bool
  defaultSave : Nat
  deriving DecidableEq, Repr

/-- The bit pattern of the `float` constant `1.f`. -/
def float_1 : Nat := 0x3F800000
/-- The bit pattern of the `float` constant `0.f`. -/
def float_0 : Nat := 0

/-- The sections of the macro `DEFAULT_CONFIG`, each with its key/value lines
in order. -/
def defaultConfigSections : List (String × List (String × String)) :=
  [ ("general",
      [ ("backlight", "64"), ("backlightSteps", "5"), ("directBoot", "false"),
        ("useGbaDb", "true"), ("useSavesFolder", "true") ]),
    ("video",
      [ ("scaler", "matrix"), ("colorProfile", "none"), ("contrast", "1.0"),
        ("brightness", "0.0"), ("saturation", "1.0") ]),
    ("audio", [ ("audioOut", "auto"), ("volume", "127") ]),
    ("advanced", [ ("saveOverride", "false"), ("defaultSave", "sram_256k") ]) ]

/-- The text of a section: the header line, then `name=value` lines. -/
def renderSection (sec : String × List (String × String)) : String :=
  "[" ++ sec.1 ++ "]\n" ++ "\n".intercalate (sec.2.map (fun kv => kv.1 ++ "=" ++ kv.2))

/-- The macro `DEFAULT_CONFIG`. -/
def DEFAULT_CONFIG : String :=
  "[general]\n" ++
  "backlight=64\n" ++
  "backlightSteps=5\n" ++
  "directBoot=false\n" ++
  "useGbaDb=true\n" ++
  "useSavesFolder=true\n\n" ++
  "[video]\n" ++
  "scaler=matrix\n" ++
  "colorProfile=none\n" ++
  "contrast=1.0\n" ++
  "brightness=0.0\n" ++
  "saturation=1.0\n\n" ++
  "[audio]\n" ++
  "audioOut=auto\n" ++
  "volume=127\n\n" ++
  "[advanced]\n" ++
  "saveOverride=false\n" ++
  "defaultSave=sram_256k"

/-- The keys of `DEFAULT_CONFIG` whose value is parsed by `str2float`. -/
def floatKeys : List String := ["contrast", "brightness", "saturation"]

/-- The key/value lines of `DEFAULT_CONFIG` that are not float lines, as the
(section, name, value) triples the INI reader hands to the callback. -/
def defaultConfigLines : List (List Char × List Char × List Char) :=
  defaultConfigSections.flatMap (fun sec =>
    (sec.2.filter (fun kv => !floatKeys.contains kv.1)).map
      (fun kv => (sec.1.toList, kv.1.toList, kv.2.toList)))

/-- The initial value of the global `g_oafConfig` ("Default config"). -/
def g_oafConfig : OafConfig :=
  { backlight := 64
    backlightSteps := 5
    directBoot := false
    useGbaDb := true
    useSavesFolder := true
    scaler := 2
    colorProfile := 0
    contrast := float_1
    brightness := float_0
    saturation := float_1
    audioOut := 0
    volume := 127
    buttonMaps := [0, 0, 0, 0, 0, 0, 0, 0, 0, 0]
    buttonComboMap :=
      [ 0, 0, 0, 0, 0, 0, 0, 0,
        0, 0, 0, 0, 0, 0, 0, 0,
        0, 0, 0, 0, 0, 0, 0, 0,
        0, 0, 0, 0, 0, 0, 0, 0 ]
    saveSlot := 0
    saveType := 255
    saveOverride := false
    defaultSave := 14 }

/-- The table `buttonStrLut` of `parseButtons`. -/
def buttonStrLut : List (List Char) :=
  [ "A", "B", "SELECT", "START", "RIGHT", "LEFT", "UP", "DOWN",
    "R", "L", "X", "Y", "", "", "ZL", "ZR",
    "", "", "", "", "TOUCH", "", "", "",
    "CS_RIGHT", "CS_LEFT", "CS_UP", "CS_DOWN", "CP_RIGHT", "CP_LEFT", "CP_UP", "CP_DOWN"
  ].map String.toList

/-- The loop of `findButton`: entries `i`, `i + 1`, ... of the table, `n` of
them; the first non-empty entry equal to `button` gives `1u << i`, returned
as `int`. -/
def findButtonLoop (button : List Char) (lut : List (List Char)) : Nat → Nat → Int
  | 0, _ => 0
  | n + 1, i =>
    if (lut.getD i []) ≠ [] ∧ strcmp (lut.getD i []) button = 0 then toInt32 (1 <<< i)
    else findButtonLoop button lut n (i + 1)

/-- The function `findButton`: 0 for `NULL` or the empty string, otherwise the
loop over the 32 table entries. -/
def findButton (button : Option (List Char)) (lut : List (List Char)) : Int :=
  match button with
  | none => 0
  | some [] => 0
  | some (c :: cs) => findButtonLoop (c :: cs) lut 32 0

/-- The `while(token)` loop of `parseButtons`, at most `n` rounds: `tok` is
the result of the last `strtok` call (token and saved position), `map` the
bits gathered so far. -/
def parseButtonsLoop : Nat → Option (List Char) × List Char → Nat → Nat
  | 0, _, map => map
  | _ + 1, (none, _), map => map
  | n + 1, (some token, save), map =>
    parseButtonsLoop n (strtok save)
      (if token ≠ [] then map ||| toU32 (findButton (some token) buttonStrLut) else map)

/-- The function `parseButtons`: 0 for `NULL` or the empty string; otherwise
the first 31 bytes are copied to `buf`, tokenised at `+` and `,`, and the bits
found are returned without bit 12.  The loop bound is the length of `buf` plus
one: every token takes at least one byte of it. -/
def parseButtons (str : Option (List Char)) : Nat :=
  match str with
  | none => 0
  | some [] => 0
  | some (c :: cs) =>
    let buf := (c :: cs).take 31
    let map := parseButtonsLoop (buf.length + 1) (strtok buf) 0
    map &&& (0xFFFFFFFF ^^^ (1 <<< 12))

/-- The `[general]` branch of `cfgIniCallback`. -/
def cfgGeneral (config : OafConfig) (name value : List Char) : OafConfig :=
  if strcmp name "backlight".toList = 0 then
    { config with backlight := toU8 (strtoul value) }
  else if strcmp name "backlightSteps".toList = 0 then
    { config with backlightSteps := toU8 (strtoul value) }
  else if strcmp name "directBoot".toList = 0 then
    { config with directBoot := if strcmp value "false".toList = 0 then false else true }
  else if strcmp name "useGbaDb".toList = 0 then
    { config with useGbaDb := if strcmp value "true".toList = 0 then true else false }
  else if strcmp name "useSavesFolder".toList = 0 then
    { config with useSavesFolder := if strcmp value "true".toList = 0 then true else false }
  else config

/-- The `[video]` branch of `cfgIniCallback`; `str2float` (util.h) is not
among the sources and is a parameter. -/
def cfgVideo (str2float : List Char → Nat) (config : OafConfig) (name value : List Char) :
    OafConfig :=
  if strcmp name "scaler".toList = 0 then
    if strcmp value "none".toList = 0 then { config with scaler := 0 }
    else if strcmp value "bilinear".toList = 0 then { config with scaler := 1 }
    else if strcmp value "matrix".toList = 0 then { config with scaler := 2 }
    else config
  else if strcmp name "colorProfile".toList = 0 then
    if strcmp value "none".toList = 0 then { config with colorProfile := 0 }
    else if strcmp value "gba".toList = 0 then { config with colorProfile := 1 }
    else if strcmp value "gb_micro".toList = 0 then { config with colorProfile := 2 }
    else if strcmp value "gba_sp101".toList = 0 then { config with colorProfile := 3 }
    else if strcmp value "nds".toList = 0 then { config with colorProfile := 4 }
    else if strcmp value "ds_lite".toList = 0 then { config with colorProfile := 5 }
    else if strcmp value "nso".toList = 0 then { config with colorProfile := 6 }
    else if strcmp value "vba".toList = 0 then { config with colorProfile := 7 }
    else if strcmp value "identity".toList = 0 then { config with colorProfile := 8 }
    else config
  else if strcmp name "contrast".toList = 0 then
    { config with contrast := str2float value }
  else if strcmp name "brightness".toList = 0 then
    { config with brightness := str2float value }
  else if strcmp name "saturation".toList = 0 then
    { config with saturation := str2float value }
  else config

/-- The `[audio]` branch of `cfgIniCallback`. -/
def cfgAudio (config : OafConfig) (name value : List Char) : OafConfig :=
  if strcmp name "audioOut".toList = 0 then
    if strcmp value "auto".toList = 0 then { config with audioOut := 0 }
    else if strcmp value "speakers".toList = 0 then { config with audioOut := 1 }
    else if strcmp value "headphones".toList = 0 then { config with audioOut := 2 }
    else config
  else if strcmp name "volume".toList = 0 then
    { config with volume := toS8 (strtol value) }
  else config

/-- The combination-mapping loop of the `[input]` branch: for `i` from 0 to
31, `if(map & (1u << i)) buttonComboMap[i] = buttons`. -/
def setComboMap (map buttons : Nat) (comboMap : List Nat) : List Nat :=
  (List.range 32).foldl
    (fun m i => if map &&& (1 <<< i) ≠ 0 then m.set i buttons else m) comboMap

/-- The `[input]` branch of `cfgIniCallback`. -/
def cfgInput (config : OafConfig) (name value : List Char) : OafConfig :=
  let map := parseButtons (some value)
  if map ≠ 0 then
    let buttons := parseButtons (some name) &&& 0x3FF
    if buttons ≠ 0 then
      if strchrFound name '+' then
        { config with buttonComboMap := setComboMap map buttons config.buttonComboMap }
      else
        let shift := 31 - builtin_clzl buttons
        { config with buttonMaps := config.buttonMaps.set shift map }
    else config
  else config

/-- The `saveType` chain of the `[game]` branch: a sequence of `if`s without
`else`. -/
def cfgSaveType (config : OafConfig) (value : List Char) : OafConfig :=
  let config := if strcmp value "eeprom_8k".toList = 0 then { config with saveType := 0 } else config
  let config := if strcmp value "rom_256m_eeprom_8k".toList = 0 then { config with saveType := 1 } else config
  let config := if strcmp value "eeprom_64k".toList = 0 then { config with saveType := 2 } else config
  let config := if strcmp value "rom_256m_eeprom_64k".toList = 0 then { config with saveType := 3 } else config
  let config := if strcmp value "flash_512k_atmel_rtc".toList = 0 then { config with saveType := 4 } else config
  let config := if strcmp value "flash_512k_atmel".toList = 0 then { config with saveType := 5 } else config
  let config := if strcmp value "flash_512k_sst_rtc".toList = 0 then { config with saveType := 6 } else config
  let config := if strcmp value "flash_512k_sst".toList = 0 then { config with saveType := 7 } else config
  let config := if strcmp value "flash_512k_panasonic_rtc".toList = 0 then { config with saveType := 8 } else config
  let config := if strcmp value "flash_512k_panasonic".toList = 0 then { config with saveType := 9 } else config
  let config := if strcmp value "flash_1m_macronix_rtc".toList = 0 then { config with saveType := 10 } else config
  let config := if strcmp value "flash_1m_macronix".toList = 0 then { config with saveType := 11 } else config
  let config := if strcmp value "flash_1m_sanyo_rtc".toList = 0 then { config with saveType := 12 } else config
  let config := if strcmp value "flash_1m_sanyo".toList = 0 then { config with saveType := 13 } else config
  let config := if strcmp value "sram_256k".toList = 0 then { config with saveType := 14 } else config
  let config := if strcmp value "none".toList = 0 then { config with saveType := 15 } else config
  let config := if strcmp value "auto".toList = 0 then { config with saveType := 255 } else config
  config

/-- The `[game]` branch of `cfgIniCallback`. -/
def cfgGame (config : OafConfig) (name value : List Char) : OafConfig :=
  let config :=
    if strcmp name "saveSlot".toList = 0 then { config with saveSlot := toU8 (strtoul value) }
    else config
  if strcmp name "saveType".toList = 0 then cfgSaveType config value else config

/-- The `defaultSave` chain of the `[advanced]` branch: a sequence of `if`s
without `else`. -/
def cfgDefaultSave (config : OafConfig) (value : List Char) : OafConfig :=
  let config := if strcmp value "eeprom_8k".toList = 0 then { config with defaultSave := 0 } else config
  let config := if strcmp value "rom_256m_eeprom_8k".toList = 0 then { config with defaultSave := 1 } else config
  let config := if strcmp value "eeprom_64k".toList = 0 then { config with defaultSave := 2 } else config
  let config := if strcmp value "rom_256m_eeprom_64k".toList = 0 then { config with defaultSave := 3 } else config
  let config := if strcmp value "flash_512k_atmel_rtc".toList = 0 then { config with defaultSave := 4 } else config
  let config := if strcmp value "flash_512k_atmel".toList = 0 then { config with defaultSave := 5 } else config
  let config := if strcmp value "flash_512k_sst_rtc".toList = 0 then { config with defaultSave := 6 } else config
  let config := if strcmp value "flash_512k_sst".toList = 0 then { config with defaultSave := 7 } else config
  let config := if strcmp value "flash_512k_panasonic_rtc".toList = 0 then { config with defaultSave := 8 } else config
  let config := if strcmp value "flash_512k_panasonic".toList = 0 then { config with defaultSave := 9 } else config
  let config := if strcmp value "flash_1m_macronix_rtc".toList = 0 then { config with defaultSave := 10 } else config
  let config := if strcmp value "flash_1m_macronix".toList = 0 then { config with defaultSave := 11 } else config
  let config := if strcmp value "flash_1m_sanyo_rtc".toList = 0 then { config with defaultSave := 12 } else config
  let config := if strcmp value "flash_1m_sanyo".toList = 0 then { config with defaultSave := 13 } else config
  let config := if strcmp value "sram_256k".toList = 0 then { config with defaultSave := 14 } else config
  let config := if strcmp value "none".toList = 0 then { config with defaultSave := 15 } else config
  config

/-- The `[advanced]` branch of `cfgIniCallback`. -/
def cfgAdvanced (config : OafConfig) (name value : List Char) : OafConfig :=
  let config :=
    if strcmp name "saveOverride".toList = 0 then
      { config with saveOverride := if strcmp value "false".toList = 0 then false else true }
    else config
  if strcmp name "defaultSave".toList = 0 then cfgDefaultSave config value else config

/-- The function `cfgIniCallback`: the value returned and the record `user`
points to afterwards.  An unknown section returns 0 ("Error"), every other
path falls through to `return 1`. -/
def cfgIniCallback (str2float : List Char → Nat) (config : OafConfig)
    (section_ name value : List Char) : Int × OafConfig :=
  if strcmp section_ "general".toList = 0 then (1, cfgGeneral config name value)
  else if strcmp section_ "video".toList = 0 then (1, cfgVideo str2float config name value)
  else if strcmp section_ "audio".toList = 0 then (1, cfgAudio config name value)
  else if strcmp section_ "input".toList = 0 then (1, cfgInput config name value)
  else if strcmp section_ "game".toList = 0 then (1, cfgGame config name value)
  else if strcmp section_ "advanced".toList = 0 then (1, cfgAdvanced config name value)
  else (0, config)

/-- The INI reader calling the handler on a list of lines in order: the values
returned, and the record afterwards. -/
def runCallback (str2float : List Char → Nat) :
    OafConfig → List (List Char × List Char × List Char) → List Int × OafConfig
  | config, [] => ([], config)
  | config, (sec, name, value) :: rest =>
    let r := cfgIniCallback str2float config sec name value
    let rs := runCallback str2float r.2 rest
    (r.1 :: rs.1, rs.2)

/-- The six section names `cfgIniCallback` compares `section` with. -/
def knownSections : List (List Char) :=
  ["general", "video", "audio", "input", "game", "advanced"].map String.toList

/-! ## The token reading of button strings

A second description of `parseButtons`, following the words "split at `+` and
`,`, skip empty tokens, OR the bits of the named buttons". -/

/-- The non-empty names of the button table with their bit numbers. -/
def buttonNames : List (String × Nat) :=
  [ ("A", 0), ("B", 1), ("SELECT", 2), ("START", 3), ("RIGHT", 4), ("LEFT", 5), ("UP", 6),
    ("DOWN", 7), ("R", 8), ("L", 9), ("X", 10), ("Y", 11), ("ZL", 14), ("ZR", 15),
    ("TOUCH", 20), ("CS_RIGHT", 24), ("CS_LEFT", 25), ("CS_UP", 26), ("CS_DOWN", 27),
    ("CP_RIGHT", 28), ("CP_LEFT", 29), ("CP_UP", 30), ("CP_DOWN", 31) ]

/-- The bit number of a token that is exactly one of the names. -/
def lookupButton (token : List Char) : List (String × Nat) → Option Nat
  | [] => none
  | (name, i) :: rest => if name.toList = token then some i else lookupButton token rest

/-- The value of a token: `1 << i` for the `i`-th name, 0 for any other
token. -/
def buttonBit (token : List Char) : Nat :=
  match lookupButton token buttonNames with
  | some i => 1 <<< i
  | none => 0

/-- The pieces of a string between separators (`+` or `,`), empty pieces
included. -/
def splitAtSeparators : List Char → List (List Char)
  | [] => [[]]
  | c :: cs =>
    if isDelim c then [] :: splitAtSeparators cs
    else
      match splitAtSeparators cs with
      | [] => [[c]]
      | t :: ts => (c :: t) :: ts

/-- The tokens of a string: the non-empty pieces between separators. -/
def buttonTokens (s : List Char) : List (List Char) :=
  (splitAtSeparators s).filter (fun t => t ≠ [])

/-- The bitwise OR of the values of the tokens of a string. -/
def parseButtonsSpec (s : List Char) : Nat :=
  ((buttonTokens s).map buttonBit).foldl (fun a b => a ||| b) 0

/-- Both separators read as `,`. -/
def normSeparator (c : Char) : Char :=
  if isDelim c then ',' else c

/-! ## Save types and button mappings: the described behaviour -/

/-- The sixteen save-type names, in the order of their codes 0..15. -/
def saveTypeNames : List String :=
  [ "eeprom_8k", "rom_256m_eeprom_8k", "eeprom_64k", "rom_256m_eeprom_64k",
    "flash_512k_atmel_rtc", "flash_512k_atmel", "flash_512k_sst_rtc", "flash_512k_sst",
    "flash_512k_panasonic_rtc", "flash_512k_panasonic", "flash_1m_macronix_rtc",
    "flash_1m_macronix", "flash_1m_sanyo_rtc", "flash_1m_sanyo", "sram_256k", "none" ]

/-- Whether button `i` of the table is named on a left side: some token of
the string is exactly the `i`-th button name. -/
def namesButton (name : List Char) (i : Nat) : Bool :=
  (buttonTokens name).any (fun t => lookupButton t buttonNames == some i)

/-- The highest-numbered button below `n` that a string names, if any. -/
def highestNamedBelow (name : List Char) : Nat → Option Nat
  | 0 => none
  | n + 1 => if namesButton name n then some n else highestNamedBelow name n

/-- The highest-numbered GBA button (bits 0..9: A, B, SELECT, START, RIGHT,
LEFT, UP, DOWN, R, L) that a string names, if any. -/
def highestNamedGbaButton (name : List Char) : Option Nat :=
  highestNamedBelow name 10

/-- A left side of 34 bytes without `+`: fifteen times `B,` and then `LEFT`,
of which the first 31 bytes end in `L`. -/
def longLeftSide : List Char :=
  "B,B,B,B,B,B,B,B,B,B,B,B,B,B,B,LEFT".toList

/-! ## Theorems: the driver interface -/

theorem strcmp_eq_zero_iff (a b : List Char) : strcmp a b = 0 ↔ a = b := by
  induction a generalizing b with
  | nil => cases b <;> simp [strcmp]
  | cons x xs ih =>
    cases b with
    | nil => simp [strcmp]
    | cons y ys =>
      by_cases hxy : x = y
      · simp [strcmp, hxy, ih]
      · by_cases hlt : x.toNat < y.toNat <;> simp [strcmp, hxy, hlt]

theorem initFailure_code_not_success (cause : InitFailure) :
    ¬ (cause.code = SDMMC_ERR_NONE ∨ cause.code = SDMMC_ERR_INITIALIZED) := by
  cases cause <;> decide

theorem cardKind_code_ne_zero (kind : CardKind) : kind.code ≠ 0 := by
  cases kind <;> decide

theorem slot_setSlot (st : SdmmcState) (devNum : Nat) (info : SdmmcInfo) :
    (st.setSlot devNum info).slot devNum = info := by
  unfold SdmmcState.setSlot SdmmcState.slot
  split <;> simp_all

/-- C1: on an initialised slot, a transfer of at least one sector whose range
ends beyond the capacity (start + count > sectorCount, no wrap-around) makes
readSectors and writeSectors return INVAL_PARAM without issuing a command; in
particular reading one sector at start = sectorCount does. -/
theorem readWriteSectors_range_overflow (hw : Controller) (st : SdmmcState)
    (devNum sect count : Nat) (hdev : devNum ≤ SDMMC_MAX_DEV_NUM)
    (hinit : (st.slot devNum).type ≠ 0) (hcount : 1 ≤ count)
    (hover : sect + count > (st.slot devNum).sectors) :
    SDMMC_readSectors hw st devNum sect count = (SDMMC_ERR_INVAL_PARAM, none) ∧
    SDMMC_writeSectors hw st devNum sect count = (SDMMC_ERR_INVAL_PARAM, none) ∧
    SDMMC_readSectors hw st devNum (st.slot devNum).sectors 1 = (SDMMC_ERR_INVAL_PARAM, none) ∧
    SDMMC_ERR_INVAL_PARAM = 1 := by
  have h1 : ¬ devNum > SDMMC_MAX_DEV_NUM := by omega
  have h2 : count ≠ 0 := by omega
  refine ⟨?_, ?_, ?_, rfl⟩
  · simp [SDMMC_readSectors, h1, hinit, h2, hover]
  · simp [SDMMC_writeSectors, h1, hinit, h2, hover]
  · simp [SDMMC_readSectors, h1, hinit]

/-- Witness of C1: sectors 996..1003 of the 1000-sector card of
`sampleState`. -/
theorem readWriteSectors_range_overflow_witness :
    SDMMC_readSectors sampleController sampleState 0 996 8 = (SDMMC_ERR_INVAL_PARAM, none) ∧
    SDMMC_writeSectors sampleController sampleState 0 996 8 = (SDMMC_ERR_INVAL_PARAM, none) ∧
    SDMMC_readSectors sampleController sampleState 0 (sampleState.slot 0).sectors 1 =
      (SDMMC_ERR_INVAL_PARAM, none) ∧
    SDMMC_ERR_INVAL_PARAM = 1 :=
  readWriteSectors_range_overflow sampleController sampleState 0 996 8 (by decide) (by decide)
    (by decide) (by decide)

/-- C2: on a device number in 0..1 whose slot is initialised, init returns
INITIALIZED (2) and leaves the state unchanged; hence a second init after an
init that did not fail (it returned NONE, or INITIALIZED itself) returns
INITIALIZED and changes nothing. -/
theorem init_twice_initialized (hw : Controller) (st : SdmmcState) (devNum : Nat)
    (hdev : devNum ≤ SDMMC_MAX_DEV_NUM) :
    ((st.slot devNum).type ≠ 0 → SDMMC_init hw st devNum = (SDMMC_ERR_INITIALIZED, st)) ∧
    ((SDMMC_init hw st devNum).1 = SDMMC_ERR_NONE ∨
        (SDMMC_init hw st devNum).1 = SDMMC_ERR_INITIALIZED →
      SDMMC_init hw (SDMMC_init hw st devNum).2 devNum =
        (SDMMC_ERR_INITIALIZED, (SDMMC_init hw st devNum).2)) ∧
    SDMMC_ERR_INITIALIZED = 2 := by
  have h1 : ¬ devNum > SDMMC_MAX_DEV_NUM := by omega
  have key : ∀ s : SdmmcState, (s.slot devNum).type ≠ 0 →
      SDMMC_init hw s devNum = (SDMMC_ERR_INITIALIZED, s) := by
    intro s hs
    simp [SDMMC_init, h1, hs]
  refine ⟨key st, ?_, rfl⟩
  intro hok
  by_cases hs : (st.slot devNum).type = 0
  · apply key
    revert hok
    unfold SDMMC_init
    rw [if_neg h1, if_neg (by simpa using hs)]
    cases hp : hw.probe devNum with
    | failed cause =>
      intro hok
      exact absurd hok (initFailure_code_not_success cause)
    | ready kind info =>
      intro _
      simp only [slot_setSlot]
      exact cardKind_code_ne_zero kind
  · rw [key st hs]
    exact key st hs

/-- Witness of C2: init(0) on the empty state with the sample card inserted,
then init(0) again. -/
theorem init_twice_initialized_witness :
    SDMMC_init sampleController emptyState 0 = (SDMMC_ERR_NONE, sampleState) ∧
    SDMMC_init sampleController sampleState 0 = (SDMMC_ERR_INITIALIZED, sampleState) ∧
    SDMMC_init sampleController (SDMMC_init sampleController emptyState 0).2 0 =
      (SDMMC_ERR_INITIALIZED, (SDMMC_init sampleController emptyState 0).2) :=
  ⟨by decide,
    (init_twice_initialized sampleController sampleState 0 (by decide)).1 (by decide),
    (init_twice_initialized sampleController emptyState 0 (by decide)).2.1 (Or.inl (by decide))⟩


/-- C3: on an initialised slot with any write-protect bit set, an in-range
writeSectors returns WRITE_PROT (22) and issues no transfer, while the same
readSectors is handed to the controller, returns whatever status the transfer
ends with, and is the same as on the slot with its write-protect mask
cleared. -/
theorem writeSectors_write_protected (hw : Controller) (st : SdmmcState)
    (devNum sect count : Nat) (hdev : devNum ≤ SDMMC_MAX_DEV_NUM)
    (hinit : (st.slot devNum).type ≠ 0) (hprot : (st.slot devNum).wrProt ≠ 0)
    (hcount : 1 ≤ count) (hrange : sect + count ≤ (st.slot devNum).sectors) :
    SDMMC_writeSectors hw st devNum sect count = (SDMMC_ERR_WRITE_PROT, none) ∧
    SDMMC_readSectors hw st devNum sect count =
      (hw.transfer (st.slot devNum).type ⟨false, devNum, sect, count⟩,
        some ⟨false, devNum, sect, count⟩) ∧
    SDMMC_readSectors hw st devNum sect count =
      SDMMC_readSectors hw (st.setSlot devNum { st.slot devNum with wrProt := 0 })
        devNum sect count ∧
    SDMMC_ERR_WRITE_PROT = 22 := by
  have h1 : ¬ devNum > SDMMC_MAX_DEV_NUM := by omega
  have h2 : count ≠ 0 := by omega
  have h3 : ¬ sect + count > (st.slot devNum).sectors := by omega
  have h3b : ¬ (st.slot devNum).sectors < sect + count := by omega
  refine ⟨?_, ?_, ?_, rfl⟩
  · simp [SDMMC_writeSectors, h1, hinit, h2, h3b, hprot]
  · simp [SDMMC_readSectors, h1, hinit, h2, h3b]
  · simp [SDMMC_readSectors, h1, hinit, h2, h3b, slot_setSlot]

/-- Witness of C3: one sector at 0 on the card of `protectedState`, whose CSD
reports the permanent write-protect bit: the write is refused, the read
returns NONE. -/
theorem writeSectors_write_protected_witness :
    SDMMC_writeSectors sampleController protectedState 0 0 1 = (SDMMC_ERR_WRITE_PROT, none) ∧
    SDMMC_readSectors sampleController protectedState 0 0 1 =
      (SDMMC_ERR_NONE, some ⟨false, 0, 0, 1⟩) :=
  ⟨(writeSectors_write_protected sampleController protectedState 0 0 1 (by decide) (by decide)
      (by decide) (by decide) (by decide)).1,
    (writeSectors_write_protected sampleController protectedState 0 0 1 (by decide) (by decide)
      (by decide) (by decide) (by decide)).2.1⟩

/-- C4: for a device number in 0..1 and any prior state, deinit returns NONE
and leaves the slot all-zero; afterwards getSectors returns 0,
getWriteProtBits returns 0xFF and getDevInfo reports kind 0. -/
theorem deinit_zeroes_slot (hw : Controller) (st : SdmmcState) (devNum : Nat)
    (hdev : devNum ≤ SDMMC_MAX_DEV_NUM) :
    (SDMMC_deinit st devNum).1 = SDMMC_ERR_NONE ∧
    (SDMMC_deinit st devNum).2.slot devNum =
      { type := 0, wrProt := 0, rca := 0, sectors := 0, clock := 0, cid := [0, 0, 0, 0],
        ccc := 0, busWidth := 0 } ∧
    SDMMC_getSectors (SDMMC_deinit st devNum).2 devNum = 0 ∧
    SDMMC_getWriteProtBits hw (SDMMC_deinit st devNum).2 devNum = 0xFF ∧
    (∃ info, SDMMC_getDevInfo (SDMMC_deinit st devNum).2 devNum = (SDMMC_ERR_NONE, some info) ∧
      info.type = 0) := by
  have h1 : ¬ devNum > SDMMC_MAX_DEV_NUM := by omega
  have hd : SDMMC_deinit st devNum = (SDMMC_ERR_NONE, st.setSlot devNum absentSlot) := by
    simp [SDMMC_deinit, h1]
  rw [hd]
  refine ⟨rfl, ?_, ?_, ?_, ?_⟩
  · simp [slot_setSlot, absentSlot]
  · simp [SDMMC_getSectors, h1, slot_setSlot, absentSlot]
  · simp [SDMMC_getWriteProtBits, h1, slot_setSlot, absentSlot]
  · exact ⟨absentSlot, by simp [SDMMC_getDevInfo, h1, slot_setSlot], rfl⟩

/-- Witness of C4: deinit(0) on the initialised card slot of `sampleState`
and deinit(1) on its absent eMMC slot. -/
theorem deinit_zeroes_slot_witness :
    SDMMC_deinit sampleState 0 = (SDMMC_ERR_NONE, emptyState) ∧
    SDMMC_deinit sampleState 1 = (SDMMC_ERR_NONE, sampleState) ∧
    SDMMC_getSectors (SDMMC_deinit sampleState 0).2 0 = 0 ∧
    SDMMC_getWriteProtBits sampleController (SDMMC_deinit sampleState 0).2 0 = 0xFF :=
  ⟨by decide, by decide,
    (deinit_zeroes_slot sampleController sampleState 0 (by decide)).2.2.1,
    (deinit_zeroes_slot sampleController sampleState 0 (by decide)).2.2.2.1⟩

/-- C5: for a device number above SDMMC_MAX_DEV_NUM (1), init, deinit,
getDevInfo and getCid return INVAL_PARAM (1), getWriteProtBits returns 0xFF,
getSectors returns 0, the state is unchanged and nothing is stored through the
output pointers. -/
theorem invalid_devNum_rejected (hw : Controller) (st : SdmmcState) (devNum : Nat)
    (hdev : devNum > SDMMC_MAX_DEV_NUM) :
    SDMMC_init hw st devNum = (SDMMC_ERR_INVAL_PARAM, st) ∧
    SDMMC_deinit st devNum = (SDMMC_ERR_INVAL_PARAM, st) ∧
    SDMMC_getDevInfo st devNum = (SDMMC_ERR_INVAL_PARAM, none) ∧
    SDMMC_getCid st devNum = (SDMMC_ERR_INVAL_PARAM, none) ∧
    SDMMC_getWriteProtBits hw st devNum = 0xFF ∧
    SDMMC_getSectors st devNum = 0 ∧
    SDMMC_ERR_INVAL_PARAM = 1 ∧ SDMMC_MAX_DEV_NUM = 1 := by
  refine ⟨?_, ?_, ?_, ?_, ?_, ?_, rfl, rfl⟩
  · simp [SDMMC_init, hdev]
  · simp [SDMMC_deinit, hdev]
  · simp [SDMMC_getDevInfo, hdev]
  · simp [SDMMC_getCid, hdev]
  · simp [SDMMC_getWriteProtBits, hdev]
  · simp [SDMMC_getSectors, hdev]

/-- Witness of C5: device number 2 on `sampleState`. -/
theorem invalid_devNum_rejected_witness :
    SDMMC_init sampleController sampleState 2 = (SDMMC_ERR_INVAL_PARAM, sampleState) ∧
    SDMMC_deinit sampleState 2 = (SDMMC_ERR_INVAL_PARAM, sampleState) ∧
    SDMMC_getDevInfo sampleState 2 = (SDMMC_ERR_INVAL_PARAM, none) ∧
    SDMMC_getCid sampleState 2 = (SDMMC_ERR_INVAL_PARAM, none) ∧
    SDMMC_getWriteProtBits sampleController sampleState 2 = 0xFF ∧
    SDMMC_getSectors sampleState 2 = 0 ∧
    SDMMC_ERR_INVAL_PARAM = 1 ∧ SDMMC_MAX_DEV_NUM = 1 :=
  invalid_devNum_rejected sampleController sampleState 2 (by decide)

/-- C6: the 23 error codes of the header, SDMMC_ERR_NONE to
SDMMC_ERR_WRITE_PROT, take exactly the values 0..22 in order, no value twice,
and SDMMC_ERR_NONE is the only one equal to 0. -/
theorem sdmmc_error_codes_distinct :
    sdmmcErrTable.length = 23 ∧
    sdmmcErrTable.map Prod.snd = List.range 23 ∧
    (sdmmcErrTable.map Prod.snd).Nodup ∧
    (sdmmcErrTable.map Prod.fst).Nodup ∧
    sdmmcErrTable.filter (fun e => e.2 = 0) = [("SDMMC_ERR_NONE", SDMMC_ERR_NONE)] ∧
    sdmmcErrTable.head? = some ("SDMMC_ERR_NONE", 0) ∧
    sdmmcErrTable.getLast? = some ("SDMMC_ERR_WRITE_PROT", 22) := by
  refine ⟨by decide, by decide, by decide, by decide, by decide, by decide, by decide⟩

/-- C7: the write-protect flags slider, temporary-CSD and permanent-CSD are
the three distinct single bits 1, 2 and 4; every combination of them is at
most 7 and differs from the 0xFF that getWriteProtBits returns for an absent
slot or an invalid device number. -/
theorem wrProt_mask_below_failure_value (hw : Controller) (st : SdmmcState) (devNum : Nat)
    (slider temp perm : Bool)
    (hfail : devNum > SDMMC_MAX_DEV_NUM ∨ (st.slot devNum).type = 0) :
    [SDMMC_WR_PROT_SLIDER, SDMMC_WR_PROT_TEMP, SDMMC_WR_PROT_PERM] = [2 ^ 0, 2 ^ 1, 2 ^ 2] ∧
    SDMMC_getWriteProtBits hw st devNum = 0xFF ∧
    ((if slider then SDMMC_WR_PROT_SLIDER else 0) ||| (if temp then SDMMC_WR_PROT_TEMP else 0) |||
      (if perm then SDMMC_WR_PROT_PERM else 0)) ≤ 7 ∧
    ((if slider then SDMMC_WR_PROT_SLIDER else 0) ||| (if temp then SDMMC_WR_PROT_TEMP else 0) |||
      (if perm then SDMMC_WR_PROT_PERM else 0)) ≠ SDMMC_getWriteProtBits hw st devNum := by
  have hff : SDMMC_getWriteProtBits hw st devNum = 0xFF := by
    unfold SDMMC_getWriteProtBits
    rcases hfail with h | h
    · simp [h]
    · simp [h]
  rw [hff]
  refine ⟨by decide, rfl, ?_, ?_⟩ <;> cases slider <;> cases temp <;> cases perm <;> decide

/-- Witness of C7: the absent eMMC slot of `sampleState`, with all three flags
combined. -/
theorem wrProt_mask_below_failure_value_witness :
    SDMMC_getWriteProtBits sampleController sampleState 1 = 0xFF ∧
    (SDMMC_WR_PROT_SLIDER ||| SDMMC_WR_PROT_TEMP ||| SDMMC_WR_PROT_PERM) ≤ 7 :=
  ⟨(wrProt_mask_below_failure_value sampleController sampleState 1 true true true
      (Or.inr (by decide))).2.1,
    (wrProt_mask_below_failure_value sampleController sampleState 1 true true true
      (Or.inr (by decide))).2.2.1⟩
/-! ## Theorems: the configuration callback -/

/-- C8: starting from the initial g_oafConfig, the callback applied to the
eleven non-float key/value lines of DEFAULT_CONFIG in order returns 1 each
time and ends with the initial record; each line alone leaves the initial
record as it is. -/
theorem default_config_text_agrees_with_record (str2float : List Char → Nat) :
    "\n\n".intercalate (defaultConfigSections.map renderSection) = DEFAULT_CONFIG ∧
    defaultConfigLines =
      [ ("general".toList, "backlight".toList, "64".toList),
        ("general".toList, "backlightSteps".toList, "5".toList),
        ("general".toList, "directBoot".toList, "false".toList),
        ("general".toList, "useGbaDb".toList, "true".toList),
        ("general".toList, "useSavesFolder".toList, "true".toList),
        ("video".toList, "scaler".toList, "matrix".toList),
        ("video".toList, "colorProfile".toList, "none".toList),
        ("audio".toList, "audioOut".toList, "auto".toList),
        ("audio".toList, "volume".toList, "127".toList),
        ("advanced".toList, "saveOverride".toList, "false".toList),
        ("advanced".toList, "defaultSave".toList, "sram_256k".toList) ] ∧
    runCallback str2float g_oafConfig defaultConfigLines = (List.replicate 11 1, g_oafConfig) ∧
    defaultConfigLines.all (fun l =>
      decide (cfgIniCallback str2float g_oafConfig l.1 l.2.1 l.2.2 = (1, g_oafConfig))) = true :=
  ⟨rfl, rfl, rfl, rfl⟩

/-- C10: the callback returns 0 exactly when the section is none of general,
video, audio, input, game, advanced, and then leaves the record unchanged; for
each of the six sections it returns 1 whatever the name and the value. -/
theorem cfgIniCallback_error_iff_unknown_section (str2float : List Char → Nat)
    (config : OafConfig) (section_ name value : List Char) :
    ((cfgIniCallback str2float config section_ name value).1 = 0 ↔ section_ ∉ knownSections) ∧
    (section_ ∉ knownSections →
      cfgIniCallback str2float config section_ name value = (0, config)) ∧
    (section_ ∈ knownSections → (cfgIniCallback str2float config section_ name value).1 = 1) := by
  have hmem : section_ ∈ knownSections ↔
      (section_ = "general".toList ∨ section_ = "video".toList ∨ section_ = "audio".toList ∨
        section_ = "input".toList ∨ section_ = "game".toList ∨ section_ = "advanced".toList) := by
    simp [knownSections]
  unfold cfgIniCallback
  simp only [strcmp_eq_zero_iff]
  rw [hmem]
  by_cases h1 : section_ = "general".toList
  · simp [h1]
  by_cases h2 : section_ = "video".toList
  · simp [h1, h2]
  by_cases h3 : section_ = "audio".toList
  · simp [h1, h2, h3]
  by_cases h4 : section_ = "input".toList
  · simp [h1, h2, h3, h4]
  by_cases h5 : section_ = "game".toList
  · simp [h1, h2, h3, h4, h5]
  by_cases h6 : section_ = "advanced".toList
  · simp [h1, h2, h3, h4, h5, h6]
  simp only [h1, h2, h3, h4, h5, h6, if_false, or_self, not_false_eq_true, true_and,
    iff_true, false_imp_iff, imp_true_iff, and_self]
theorem toU32_toInt32 (x : Nat) (h : x < 2 ^ 32) : toU32 (toInt32 x) = x := by
  unfold toU32 toInt32
  rw [Nat.mod_eq_of_lt h]
  split <;> omega

theorem findButtonLoop_eq_zero (token : List Char) (lut : List (List Char)) (n i : Nat)
    (h : ∀ j, i ≤ j → j < i + n → lut.getD j [] = [] ∨ lut.getD j [] ≠ token) :
    findButtonLoop token lut n i = 0 := by
  induction n generalizing i with
  | zero => rfl
  | succ n ih =>
    unfold findButtonLoop
    have hi := h i (Nat.le_refl i) (by omega)
    rw [if_neg]
    · exact ih (i + 1) (fun j h1 h2 => h j (by omega) (by omega))
    · rw [strcmp_eq_zero_iff]
      rintro ⟨h1, h2⟩
      rcases hi with hi | hi
      · exact h1 hi
      · exact hi h2

theorem lookupButton_eq_none (token : List Char) (names : List (String × Nat))
    (h : token ∉ names.map (fun e => e.1.toList)) : lookupButton token names = none := by
  induction names with
  | nil => rfl
  | cons e rest ih =>
    obtain ⟨name, i⟩ := e
    simp only [List.map_cons, List.mem_cons, not_or] at h
    unfold lookupButton
    rw [if_neg (fun hh => h.1 hh.symm)]
    exact ih h.2

theorem buttonStrLut_entries :
    ∀ j < 32, buttonStrLut.getD j [] = [] ∨
      buttonStrLut.getD j [] ∈ buttonNames.map (fun e => e.1.toList) := by
  decide

theorem findButton_names :
    ∀ token ∈ buttonNames.map (fun e => e.1.toList),
      toU32 (findButton (some token) buttonStrLut) = buttonBit token := by
  decide

theorem findButton_eq_buttonBit (token : List Char) (h : token ≠ []) :
    toU32 (findButton (some token) buttonStrLut) = buttonBit token := by
  by_cases hmem : token ∈ buttonNames.map (fun e => e.1.toList)
  · exact findButton_names token hmem
  · have hz : findButton (some token) buttonStrLut = 0 := by
      cases token with
      | nil => exact absurd rfl h
      | cons c cs =>
        show findButtonLoop (c :: cs) buttonStrLut 32 0 = 0
        apply findButtonLoop_eq_zero
        intro j _ hj
        rcases buttonStrLut_entries j (by omega) with h0 | h1
        · exact Or.inl h0
        · exact Or.inr (fun heq => hmem (heq ▸ h1))
    rw [hz]
    unfold buttonBit
    rw [lookupButton_eq_none token buttonNames hmem]
    rfl
theorem splitAtSeparators_eq (l : List Char) :
    splitAtSeparators l =
      l.takeWhile (fun x => !isDelim x) ::
        (if l.dropWhile (fun x => !isDelim x) = [] then []
          else splitAtSeparators ((l.dropWhile (fun x => !isDelim x)).drop 1)) := by
  induction l with
  | nil => simp [splitAtSeparators]
  | cons c cs ih =>
    by_cases hc : isDelim c = true
    · simp [splitAtSeparators, hc]
    · have hc2 : isDelim c = false := by simpa using hc
      rw [splitAtSeparators, if_neg hc, ih]
      simp [hc2]

theorem buttonTokens_nil : buttonTokens [] = [] := by
  simp [buttonTokens, splitAtSeparators]

theorem buttonTokens_cons_delim (c : Char) (cs : List Char) (hc : isDelim c = true) :
    buttonTokens (c :: cs) = buttonTokens cs := by
  simp [buttonTokens, splitAtSeparators, hc]

theorem buttonTokens_dropWhile (l : List Char) :
    buttonTokens (l.dropWhile isDelim) = buttonTokens l := by
  induction l with
  | nil => rfl
  | cons c cs ih =>
    by_cases hc : isDelim c = true
    · rw [List.dropWhile_cons_of_pos hc, ih, buttonTokens_cons_delim c cs hc]
    · rw [List.dropWhile_cons_of_neg hc]

theorem buttonTokens_cons_token (c : Char) (cs : List Char) (hc : isDelim c = false) :
    buttonTokens (c :: cs) =
      (c :: cs).takeWhile (fun x => !isDelim x) ::
        buttonTokens (((c :: cs).dropWhile (fun x => !isDelim x)).drop 1) := by
  unfold buttonTokens
  rw [splitAtSeparators_eq (c :: cs)]
  have hne : (c :: cs).takeWhile (fun x => !isDelim x) ≠ [] := by simp [hc]
  rw [List.filter_cons_of_pos (by simpa using hne)]
  congr 1
  by_cases hd : (c :: cs).dropWhile (fun x => !isDelim x) = []
  · rw [if_pos hd, hd]
    simp [splitAtSeparators]
  · rw [if_neg hd]

theorem head_dropWhile_isDelim (l : List Char) (c : Char) (cs : List Char)
    (h : l.dropWhile isDelim = c :: cs) : isDelim c = false := by
  induction l with
  | nil => simp at h
  | cons x xs ih =>
    by_cases hx : isDelim x = true
    · rw [List.dropWhile_cons_of_pos hx] at h
      exact ih h
    · rw [List.dropWhile_cons_of_neg hx] at h
      injection h with h1 _
      subst h1
      simpa using hx

theorem parseButtonsLoop_eq (n : Nat) (save : List Char) (map : Nat) (h : save.length < n) :
    parseButtonsLoop n (strtok save) map =
      ((buttonTokens save).map buttonBit).foldl (fun a b => a ||| b) map := by
  induction n generalizing save map with
  | zero => omega
  | succ n ih =>
    cases hd : save.dropWhile isDelim with
    | nil =>
      have htok : buttonTokens save = [] := by
        rw [← buttonTokens_dropWhile, hd, buttonTokens_nil]
      simp [strtok, hd, parseButtonsLoop, htok]
    | cons c cs =>
      have hc := head_dropWhile_isDelim save c cs hd
      have hlen : (c :: cs).length ≤ save.length := by
        rw [← hd]; exact (List.dropWhile_sublist isDelim).length_le
      have hrest : (((c :: cs).dropWhile (fun x => !isDelim x)).drop 1).length < n := by
        have := (List.dropWhile_sublist (fun x => !isDelim x) : List.Sublist _ (c :: cs)).length_le
        rw [List.length_drop]
        simp only [List.length_cons] at hlen this ⊢
        omega
      have hne : (c :: cs).takeWhile (fun x => !isDelim x) ≠ [] := by simp [hc]
      have htok : buttonTokens save =
          (c :: cs).takeWhile (fun x => !isDelim x) ::
            buttonTokens (((c :: cs).dropWhile (fun x => !isDelim x)).drop 1) := by
        rw [← buttonTokens_dropWhile, hd, buttonTokens_cons_token c cs hc]
      have hs : strtok save =
          (some ((c :: cs).takeWhile (fun x => !isDelim x)),
            ((c :: cs).dropWhile (fun x => !isDelim x)).drop 1) := by
        simp only [strtok, hd]
      rw [hs, parseButtonsLoop, if_pos hne, ih _ _ hrest, htok, findButton_eq_buttonBit _ hne]
      rfl
theorem foldl_or_testBit (l : List Nat) (m k : Nat) :
    (l.foldl (fun a b => a ||| b) m).testBit k = (m.testBit k || l.any (fun x => x.testBit k)) := by
  induction l generalizing m with
  | nil => simp
  | cons x xs ih => simp [ih, Nat.testBit_or, Bool.or_assoc]

theorem foldl_or_congr (l1 l2 : List Nat) (h : ∀ x, x ∈ l1 ↔ x ∈ l2) :
    l1.foldl (fun a b => a ||| b) 0 = l2.foldl (fun a b => a ||| b) 0 := by
  apply Nat.eq_of_testBit_eq
  intro k
  rw [foldl_or_testBit, foldl_or_testBit]
  congr 1
  rw [Bool.eq_iff_iff]
  simp only [List.any_eq_true]
  constructor
  · rintro ⟨x, hx, hk⟩
    exact ⟨x, (h x).1 hx, hk⟩
  · rintro ⟨x, hx, hk⟩
    exact ⟨x, (h x).2 hx, hk⟩

theorem buttonBit_names_bits :
    ∀ token ∈ buttonNames.map (fun e => e.1.toList),
      (buttonBit token).testBit 12 = false ∧ buttonBit token < 2 ^ 32 := by
  decide

theorem buttonBit_bits (token : List Char) :
    (buttonBit token).testBit 12 = false ∧ buttonBit token < 2 ^ 32 := by
  by_cases hmem : token ∈ buttonNames.map (fun e => e.1.toList)
  · exact buttonBit_names_bits token hmem
  · unfold buttonBit
    rw [lookupButton_eq_none token buttonNames hmem]
    decide

theorem parseButtonsSpec_testBit (s : List Char) (k : Nat) :
    (parseButtonsSpec s).testBit k = (buttonTokens s).any (fun t => (buttonBit t).testBit k) := by
  unfold parseButtonsSpec
  rw [foldl_or_testBit, Nat.zero_testBit, Bool.false_or]
  induction buttonTokens s with
  | nil => rfl
  | cons t ts ih => simp [ih]

theorem parseButtonsSpec_mask (s : List Char) :
    parseButtonsSpec s &&& (0xFFFFFFFF ^^^ (1 <<< 12)) = parseButtonsSpec s := by
  apply Nat.eq_of_testBit_eq
  intro k
  rw [Nat.testBit_and, parseButtonsSpec_testBit]
  cases hany : (buttonTokens s).any (fun t => (buttonBit t).testBit k) with
  | false => rfl
  | true =>
    rw [List.any_eq_true] at hany
    obtain ⟨t, _, ht⟩ := hany
    have hb := buttonBit_bits t
    have hk32 : k < 32 := by
      by_contra hge
      have : buttonBit t < 2 ^ k :=
        lt_of_lt_of_le hb.2 (Nat.pow_le_pow_right (by decide) (by omega))
      rw [Nat.testBit_lt_two_pow this] at ht
      exact Bool.noConfusion ht
    have hk12 : k ≠ 12 := by
      rintro rfl
      rw [hb.1] at ht
      exact Bool.noConfusion ht
    have : ∀ j < 32, j ≠ 12 → (0xFFFFFFFF ^^^ (1 <<< 12) : Nat).testBit j = true := by decide
    rw [this k hk32 hk12]
    rfl

theorem splitAtSeparators_map_normSeparator (s : List Char) :
    splitAtSeparators (s.map normSeparator) = splitAtSeparators s := by
  induction s with
  | nil => rfl
  | cons c cs ih =>
    by_cases hc : isDelim c = true
    · have hn : normSeparator c = ',' := by simp [normSeparator, hc]
      have hd : isDelim ',' = true := by decide
      simp [splitAtSeparators, hc, hn, hd, ih]
    · have hn : normSeparator c = c := by simp [normSeparator, hc]
      simp [splitAtSeparators, hc, hn, ih]

theorem parseButtons_eq_spec (s : List Char) (hs : s.length ≤ 31) :
    parseButtons (some s) = parseButtonsSpec s := by
  cases s with
  | nil => rfl
  | cons c cs =>
    have htake : (c :: cs).take 31 = c :: cs := List.take_of_length_le hs
    simp only [parseButtons]
    rw [htake, parseButtonsLoop_eq _ _ _ (Nat.lt_succ_self _)]
    exact parseButtonsSpec_mask (c :: cs)
/-- C9: for a string of at most 31 bytes, parseButtons is the bitwise OR, over
the non-empty tokens between the separators `+` and `,`, of `1 << i` for a
token that is exactly the `i`-th button name and 0 for any other token; so two
such strings with the same set of tokens (whatever their order or repetition),
or that differ only in which separator stands where, give the same result, and
the empty string and NULL give 0. -/
theorem parseButtons_eq_or_of_tokens (s t : List Char) (hs : s.length ≤ 31)
    (ht : t.length ≤ 31) :
    parseButtons (some s) = parseButtonsSpec s ∧
    ((∀ tok ∈ buttonTokens s, tok ∈ buttonTokens t) →
      (∀ tok ∈ buttonTokens t, tok ∈ buttonTokens s) →
      parseButtons (some s) = parseButtons (some t)) ∧
    (s.map normSeparator = t.map normSeparator →
      parseButtons (some s) = parseButtons (some t)) ∧
    parseButtons (some []) = 0 ∧ parseButtons none = 0 := by
  refine ⟨parseButtons_eq_spec s hs, ?_, ?_, rfl, rfl⟩
  · intro h1 h2
    rw [parseButtons_eq_spec s hs, parseButtons_eq_spec t ht]
    unfold parseButtonsSpec
    apply foldl_or_congr
    intro x
    simp only [List.mem_map]
    constructor
    · rintro ⟨tok, htok, rfl⟩
      exact ⟨tok, h1 tok htok, rfl⟩
    · rintro ⟨tok, htok, rfl⟩
      exact ⟨tok, h2 tok htok, rfl⟩
  · intro h
    rw [parseButtons_eq_spec s hs, parseButtons_eq_spec t ht]
    unfold parseButtonsSpec buttonTokens
    rw [← splitAtSeparators_map_normSeparator s, h, splitAtSeparators_map_normSeparator t]

/-- Witness of C9: `B,A+START+B` names A, B and START (bits 0, 1, 3), as does
`A+B,START`, and `A+ZL` reads as `A,ZL`. -/
theorem parseButtons_eq_or_of_tokens_witness :
    parseButtons (some "B,A+START+B".toList) = parseButtonsSpec "B,A+START+B".toList ∧
    parseButtonsSpec "B,A+START+B".toList = 11 ∧
    parseButtons (some "B,A+START+B".toList) = parseButtons (some "A+B,START".toList) ∧
    parseButtons (some "A+ZL".toList) = parseButtons (some "A,ZL".toList) :=
  ⟨(parseButtons_eq_or_of_tokens "B,A+START+B".toList "A+B,START".toList (by decide)
      (by decide)).1,
    by decide,
    (parseButtons_eq_or_of_tokens "B,A+START+B".toList "A+B,START".toList (by decide)
      (by decide)).2.1 (by decide) (by decide),
    (parseButtons_eq_or_of_tokens "A+ZL".toList "A,ZL".toList (by decide)
      (by decide)).2.2.1 (by decide)⟩
/-- C13: the saveType chain of section game and the defaultSave chain of
section advanced agree: the k-th of the sixteen save-type names (k = 0..15, in
order, all names distinct) stores k in either field; a value that is none of
the names nor `auto` leaves both fields as they are; `auto` stores 255 in
saveType and leaves defaultSave as it is.  Nothing else of the record
changes and 1 is returned. -/
theorem save_type_tables_agree (str2float : List Char → Nat) (config : OafConfig)
    (v : List Char) :
    saveTypeNames.length = 16 ∧ saveTypeNames.Nodup ∧
    (∀ k < 16, v = (saveTypeNames.getD k "").toList →
      cfgIniCallback str2float config "game".toList "saveType".toList v =
        (1, { config with saveType := k }) ∧
      cfgIniCallback str2float config "advanced".toList "defaultSave".toList v =
        (1, { config with defaultSave := k })) ∧
    (v ∉ saveTypeNames.map String.toList → v ≠ "auto".toList →
      cfgIniCallback str2float config "game".toList "saveType".toList v = (1, config) ∧
      cfgIniCallback str2float config "advanced".toList "defaultSave".toList v = (1, config)) ∧
    (v = "auto".toList →
      cfgIniCallback str2float config "game".toList "saveType".toList v =
        (1, { config with saveType := 255 }) ∧
      cfgIniCallback str2float config "advanced".toList "defaultSave".toList v = (1, config)) := by
  refine ⟨by decide, by decide, ?_, ?_, ?_⟩
  · intro k hk hv
    subst hv
    interval_cases k <;> exact ⟨rfl, rfl⟩
  · intro hmem hauto
    simp only [saveTypeNames, List.map_cons, List.map_nil, List.mem_cons, List.mem_nil_iff,
      or_false, not_or] at hmem
    obtain ⟨h0, h1, h2, h3, h4, h5, h6, h7, h8, h9, h10, h11, h12, h13, h14, h15⟩ := hmem
    have hg : cfgSaveType config v = config := by
      unfold cfgSaveType
      simp only [strcmp_eq_zero_iff, if_neg h0, if_neg h1, if_neg h2, if_neg h3, if_neg h4,
        if_neg h5, if_neg h6, if_neg h7, if_neg h8, if_neg h9, if_neg h10, if_neg h11,
        if_neg h12, if_neg h13, if_neg h14, if_neg h15, if_neg hauto]
    have ha : cfgDefaultSave config v = config := by
      unfold cfgDefaultSave
      simp only [strcmp_eq_zero_iff, if_neg h0, if_neg h1, if_neg h2, if_neg h3, if_neg h4,
        if_neg h5, if_neg h6, if_neg h7, if_neg h8, if_neg h9, if_neg h10, if_neg h11,
        if_neg h12, if_neg h13, if_neg h14, if_neg h15]
    constructor
    · have : cfgIniCallback str2float config "game".toList "saveType".toList v =
          (1, cfgSaveType config v) := rfl
      rw [this, hg]
    · have : cfgIniCallback str2float config "advanced".toList "defaultSave".toList v =
          (1, cfgDefaultSave config v) := rfl
      rw [this, ha]
  · intro hv
    subst hv
    exact ⟨rfl, rfl⟩
theorem and_one_shiftLeft_ne_zero (m i : Nat) : m &&& (1 <<< i) ≠ 0 ↔ m.testBit i = true := by
  rw [Nat.one_shiftLeft]
  constructor
  · intro h
    by_contra hb
    apply h
    apply Nat.eq_of_testBit_eq
    intro j
    rw [Nat.testBit_and, Nat.testBit_two_pow, Nat.zero_testBit]
    by_cases hij : i = j
    · subst hij
      simp [hb]
    · simp [hij]
  · intro hb h
    have : (m &&& 2 ^ i).testBit i = true := by
      rw [Nat.testBit_and, Nat.testBit_two_pow_self, hb]
      rfl
    rw [h, Nat.zero_testBit] at this
    exact Bool.noConfusion this

theorem foldl_range_set (map buttons n : Nat) (l : List Nat) (i : Nat) :
    ((List.range n).foldl
        (fun m j => if map &&& (1 <<< j) ≠ 0 then m.set j buttons else m) l).length = l.length ∧
    ((List.range n).foldl
        (fun m j => if map &&& (1 <<< j) ≠ 0 then m.set j buttons else m) l)[i]? =
      if i < n ∧ map.testBit i = true then (if i < l.length then some buttons else none)
      else l[i]? := by
  induction n with
  | zero => simp
  | succ n ih =>
    rw [List.range_succ, List.foldl_append]
    obtain ⟨ihlen, ihget⟩ := ih
    simp only [List.foldl_cons, List.foldl_nil]
    by_cases hb : map.testBit n = true
    · rw [if_pos ((and_one_shiftLeft_ne_zero map n).2 hb)]
      refine ⟨by rw [List.length_set, ihlen], ?_⟩
      rw [List.getElem?_set, ihlen]
      by_cases hni : n = i
      · subst hni
        simp [hb]
      · rw [if_neg hni, ihget]
        have h1 : (i < n + 1 ∧ map.testBit i = true) ↔ (i < n ∧ map.testBit i = true) := by
          constructor
          · rintro ⟨h1, h2⟩
            exact ⟨by omega, h2⟩
          · rintro ⟨h1, h2⟩
            exact ⟨by omega, h2⟩
        simp only [h1]
    · rw [if_neg (fun h => hb ((and_one_shiftLeft_ne_zero map n).1 h))]
      refine ⟨ihlen, ?_⟩
      rw [ihget]
      have h1 : (i < n + 1 ∧ map.testBit i = true) ↔ (i < n ∧ map.testBit i = true) := by
        constructor
        · rintro ⟨h1, h2⟩
          refine ⟨?_, h2⟩
          rcases Nat.lt_succ_iff_lt_or_eq.1 h1 with h | h
          · exact h
          · subst h
            exact absurd h2 hb
        · rintro ⟨h1, h2⟩
          exact ⟨by omega, h2⟩
      simp only [h1]

theorem setComboMap_getElem? (map buttons : Nat) (l : List Nat) (i : Nat) (hi : i < 32)
    (hl : l.length = 32) :
    (setComboMap map buttons l)[i]? = if map.testBit i = true then some buttons else l[i]? := by
  unfold setComboMap
  rw [(foldl_range_set map buttons 32 l i).2]
  simp [hi, hl]

theorem setComboMap_length (map buttons : Nat) (l : List Nat) :
    (setComboMap map buttons l).length = l.length :=
  (foldl_range_set map buttons 32 l 0).1

theorem and_0x3FF_testBit (x j : Nat) (hj : 10 ≤ j) : (x &&& 0x3FF).testBit j = false := by
  have : x &&& 0x3FF < 2 ^ 10 := Nat.lt_of_le_of_lt Nat.and_le_right (by decide)
  exact Nat.testBit_lt_two_pow (Nat.lt_of_lt_of_le this (Nat.pow_le_pow_right (by decide) hj))
theorem cfgSaveType_shape (config : OafConfig) (v : List Char) :
    ∃ k, cfgSaveType config v = { config with saveType := k } := by
  by_cases hauto : v = "auto".toList
  · subst hauto
    exact ⟨255, rfl⟩
  by_cases hmem : v ∈ saveTypeNames.map String.toList
  · simp only [saveTypeNames, List.map_cons, List.map_nil, List.mem_cons, List.mem_nil_iff,
      or_false] at hmem
    rcases hmem with h | h | h | h | h | h | h | h | h | h | h | h | h | h | h | h <;>
      subst h <;> exact ⟨_, rfl⟩
  · refine ⟨config.saveType, ?_⟩
    simp only [saveTypeNames, List.map_cons, List.map_nil, List.mem_cons, List.mem_nil_iff,
      or_false, not_or] at hmem
    obtain ⟨h0, h1, h2, h3, h4, h5, h6, h7, h8, h9, h10, h11, h12, h13, h14, h15⟩ := hmem
    unfold cfgSaveType
    simp only [strcmp_eq_zero_iff, if_neg h0, if_neg h1, if_neg h2, if_neg h3, if_neg h4,
      if_neg h5, if_neg h6, if_neg h7, if_neg h8, if_neg h9, if_neg h10, if_neg h11,
      if_neg h12, if_neg h13, if_neg h14, if_neg h15, if_neg hauto]

theorem cfgDefaultSave_shape (config : OafConfig) (v : List Char) :
    ∃ k, cfgDefaultSave config v = { config with defaultSave := k } := by
  by_cases hmem : v ∈ saveTypeNames.map String.toList
  · simp only [saveTypeNames, List.map_cons, List.map_nil, List.mem_cons, List.mem_nil_iff,
      or_false] at hmem
    rcases hmem with h | h | h | h | h | h | h | h | h | h | h | h | h | h | h | h <;>
      subst h <;> exact ⟨_, rfl⟩
  · refine ⟨config.defaultSave, ?_⟩
    simp only [saveTypeNames, List.map_cons, List.map_nil, List.mem_cons, List.mem_nil_iff,
      or_false, not_or] at hmem
    obtain ⟨h0, h1, h2, h3, h4, h5, h6, h7, h8, h9, h10, h11, h12, h13, h14, h15⟩ := hmem
    unfold cfgDefaultSave
    simp only [strcmp_eq_zero_iff, if_neg h0, if_neg h1, if_neg h2, if_neg h3, if_neg h4,
      if_neg h5, if_neg h6, if_neg h7, if_neg h8, if_neg h9, if_neg h10, if_neg h11,
      if_neg h12, if_neg h13, if_neg h14, if_neg h15]

theorem cfgGeneral_maps (config : OafConfig) (name value : List Char) :
    (cfgGeneral config name value).buttonComboMap = config.buttonComboMap ∧
    (cfgGeneral config name value).buttonMaps = config.buttonMaps := by
  unfold cfgGeneral
  split_ifs <;> exact ⟨rfl, rfl⟩

theorem cfgVideo_maps (str2float : List Char → Nat) (config : OafConfig)
    (name value : List Char) :
    (cfgVideo str2float config name value).buttonComboMap = config.buttonComboMap ∧
    (cfgVideo str2float config name value).buttonMaps = config.buttonMaps := by
  unfold cfgVideo
  by_cases h1 : strcmp name "scaler".toList = 0
  · rw [if_pos h1]
    split_ifs <;> exact ⟨rfl, rfl⟩
  · rw [if_neg h1]
    by_cases h2 : strcmp name "colorProfile".toList = 0
    · rw [if_pos h2]
      split_ifs <;> exact ⟨rfl, rfl⟩
    · rw [if_neg h2]
      split_ifs <;> exact ⟨rfl, rfl⟩

theorem cfgAudio_maps (config : OafConfig) (name value : List Char) :
    (cfgAudio config name value).buttonComboMap = config.buttonComboMap ∧
    (cfgAudio config name value).buttonMaps = config.buttonMaps := by
  unfold cfgAudio
  split_ifs <;> exact ⟨rfl, rfl⟩

theorem cfgGame_maps (config : OafConfig) (name value : List Char) :
    (cfgGame config name value).buttonComboMap = config.buttonComboMap ∧
    (cfgGame config name value).buttonMaps = config.buttonMaps := by
  have key : ∀ c : OafConfig, (cfgSaveType c value).buttonComboMap = c.buttonComboMap ∧
      (cfgSaveType c value).buttonMaps = c.buttonMaps := by
    intro c
    obtain ⟨k, hk⟩ := cfgSaveType_shape c value
    rw [hk]
    exact ⟨rfl, rfl⟩
  unfold cfgGame
  simp only []
  by_cases h2 : strcmp name "saveType".toList = 0
  · rw [if_pos h2, (key _).1, (key _).2]
    split_ifs <;> exact ⟨rfl, rfl⟩
  · rw [if_neg h2]
    split_ifs <;> exact ⟨rfl, rfl⟩

theorem cfgAdvanced_maps (config : OafConfig) (name value : List Char) :
    (cfgAdvanced config name value).buttonComboMap = config.buttonComboMap ∧
    (cfgAdvanced config name value).buttonMaps = config.buttonMaps := by
  have key : ∀ c : OafConfig, (cfgDefaultSave c value).buttonComboMap = c.buttonComboMap ∧
      (cfgDefaultSave c value).buttonMaps = c.buttonMaps := by
    intro c
    obtain ⟨k, hk⟩ := cfgDefaultSave_shape c value
    rw [hk]
    exact ⟨rfl, rfl⟩
  unfold cfgAdvanced
  simp only []
  by_cases h2 : strcmp name "defaultSave".toList = 0
  · rw [if_pos h2, (key _).1, (key _).2]
    split_ifs <;> exact ⟨rfl, rfl⟩
  · rw [if_neg h2]
    split_ifs <;> exact ⟨rfl, rfl⟩
theorem cfgIniCallback_input (str2float : List Char → Nat) (config : OafConfig)
    (name value : List Char) :
    cfgIniCallback str2float config "input".toList name value = (1, cfgInput config name value) :=
  rfl

theorem strchrFound_iff (s : List Char) (c : Char) : strchrFound s c = true ↔ c ∈ s := by
  unfold strchrFound
  simp

theorem cfgInput_comboMap_entry (config : OafConfig) (name value : List Char) (i w : Nat)
    (h : (cfgInput config name value).buttonComboMap[i]? = some w) :
    config.buttonComboMap[i]? = some w ∨
      (w = parseButtons (some name) &&& 0x3FF ∧ parseButtons (some name) &&& 0x3FF ≠ 0 ∧
        strchrFound name '+' = true) := by
  unfold cfgInput at h
  simp only [] at h
  split_ifs at h with h1 h2 h3
  · simp only [setComboMap] at h
    rw [(foldl_range_set _ _ 32 config.buttonComboMap i).2] at h
    split_ifs at h with h4 h5
    · exact Or.inr ⟨(Option.some.inj h).symm, h2, h3⟩
    · exact Or.inl h
  · exact Or.inl h
  · exact Or.inl h
  · exact Or.inl h

/-- C12: in section input, for a name containing `+` with
M = parseButtons(value) ≠ 0 and G = parseButtons(name) & 0x3FF ≠ 0, the
callback returns 1, entry i of the 32-entry buttonComboMap becomes G for every
i with bit i set in M and keeps its old value for every other i, and nothing
else of the record changes; G is non-zero with no bit outside 0x3FF, and in
any call of the callback an entry of buttonComboMap either keeps its old value
or receives a non-zero value with no bit outside 0x3FF. -/
theorem comboMap_written_with_gba_buttons (str2float : List Char → Nat) (config : OafConfig)
    (name value : List Char) (hlen : config.buttonComboMap.length = 32)
    (hplus : '+' ∈ name) (hM : parseButtons (some value) ≠ 0)
    (hG : parseButtons (some name) &&& 0x3FF ≠ 0) :
    (cfgIniCallback str2float config "input".toList name value).1 = 1 ∧
    (∀ i < 32,
      (cfgIniCallback str2float config "input".toList name value).2.buttonComboMap[i]? =
        if (parseButtons (some value)).testBit i = true then
          some (parseButtons (some name) &&& 0x3FF)
        else config.buttonComboMap[i]?) ∧
    (cfgIniCallback str2float config "input".toList name value).2.buttonComboMap.length = 32 ∧
    (cfgIniCallback str2float config "input".toList name value).2 =
      { config with
        buttonComboMap :=
          (cfgIniCallback str2float config "input".toList name value).2.buttonComboMap } ∧
    (∀ j, 10 ≤ j → (parseButtons (some name) &&& 0x3FF).testBit j = false) ∧
    (∀ (section_ n v : List Char) (i w : Nat),
      (cfgIniCallback str2float config section_ n v).2.buttonComboMap[i]? = some w →
      config.buttonComboMap[i]? = some w ∨
        (w ≠ 0 ∧ ∀ j, 10 ≤ j → w.testBit j = false)) := by
  have hin : cfgInput config name value =
      { config with
        buttonComboMap :=
          setComboMap (parseButtons (some value)) (parseButtons (some name) &&& 0x3FF)
            config.buttonComboMap } := by
    unfold cfgInput
    simp only []
    rw [if_pos hM, if_pos hG, if_pos ((strchrFound_iff name '+').2 hplus)]
  rw [cfgIniCallback_input, hin]
  refine ⟨rfl, ?_, ?_, rfl, ?_, ?_⟩
  · intro i hi
    exact setComboMap_getElem? _ _ _ i hi hlen
  · show (setComboMap _ _ config.buttonComboMap).length = 32
    rw [setComboMap_length, hlen]
  · intro j hj
    exact and_0x3FF_testBit _ j hj
  · intro section_ n v i w hw
    unfold cfgIniCallback at hw
    split_ifs at hw
    · rw [(cfgGeneral_maps config n v).1] at hw
      exact Or.inl hw
    · rw [(cfgVideo_maps str2float config n v).1] at hw
      exact Or.inl hw
    · rw [(cfgAudio_maps config n v).1] at hw
      exact Or.inl hw
    · rcases cfgInput_comboMap_entry config n v i w hw with h | ⟨h1, h2, _⟩
      · exact Or.inl h
      · right
        subst h1
        exact ⟨h2, fun j hj => and_0x3FF_testBit _ j hj⟩
    · rw [(cfgGame_maps config n v).1] at hw
      exact Or.inl hw
    · rw [(cfgAdvanced_maps config n v).1] at hw
      exact Or.inl hw
    · exact Or.inl hw
/-- Witness of C12: `A+B=X,Y` on the initial record writes A|B (3) to the
entries 10 (X) and 11 (Y) of buttonComboMap. -/
theorem comboMap_written_with_gba_buttons_witness :
    (∀ i < 32,
      (cfgIniCallback (fun _ => 0) g_oafConfig "input".toList "A+B".toList
          "X,Y".toList).2.buttonComboMap[i]? =
        if (parseButtons (some "X,Y".toList)).testBit i = true then
          some (parseButtons (some "A+B".toList) &&& 0x3FF)
        else g_oafConfig.buttonComboMap[i]?) ∧
    (cfgIniCallback (fun _ => 0) g_oafConfig "input".toList "A+B".toList
        "X,Y".toList).2.buttonComboMap =
      [ 0, 0, 0, 0, 0, 0, 0, 0, 0, 0, 3, 3, 0, 0, 0, 0,
        0, 0, 0, 0, 0, 0, 0, 0, 0, 0, 0, 0, 0, 0, 0, 0 ] :=
  ⟨(comboMap_written_with_gba_buttons (fun _ => 0) g_oafConfig "A+B".toList "X,Y".toList
      (by decide) (by decide) (by decide) (by decide)).2.1,
    by decide⟩

theorem parseButtons_eq_spec_take (s : List Char) :
    parseButtons (some s) = parseButtonsSpec (s.take 31) := by
  cases s with
  | nil => rfl
  | cons c cs =>
    simp only [parseButtons]
    rw [parseButtonsLoop_eq _ _ _ (Nat.lt_succ_self _)]
    exact parseButtonsSpec_mask ((c :: cs).take 31)

theorem buttonBit_testBit (t : List Char) (i : Nat) :
    (buttonBit t).testBit i = (lookupButton t buttonNames == some i) := by
  unfold buttonBit
  cases lookupButton t buttonNames with
  | none => simp
  | some k =>
    simp only [Nat.one_shiftLeft, Nat.testBit_two_pow]
    by_cases hk : k = i
    · subst hk
      simp
    · simp [hk]

theorem parseButtonsSpec_testBit_names (s : List Char) (i : Nat) :
    (parseButtonsSpec s).testBit i = namesButton s i := by
  rw [parseButtonsSpec_testBit]
  unfold namesButton
  congr 1
  funext t
  exact buttonBit_testBit t i

theorem clzFrom_spec (n x : Nat) (hx : x ≠ 0) (hlt : x < 2 ^ n) :
    clzFrom n x < n ∧ x.testBit (n - 1 - clzFrom n x) = true ∧
      ∀ j, n - 1 - clzFrom n x < j → x.testBit j = false := by
  induction n with
  | zero =>
    exfalso
    apply hx
    simpa using hlt
  | succ n ih =>
    unfold clzFrom
    by_cases hb : x.testBit n = true
    · rw [if_pos hb]
      refine ⟨Nat.succ_pos n, ?_, ?_⟩
      · simpa using hb
      · intro j hj
        apply Nat.testBit_lt_two_pow
        exact Nat.lt_of_lt_of_le hlt (Nat.pow_le_pow_right (by decide) (by omega))
    · rw [if_neg hb]
      have hb2 : x.testBit n = false := by simpa using hb
      have hlt2 : x < 2 ^ n := by
        apply Nat.lt_pow_two_of_testBit
        intro i hi
        rcases Nat.eq_or_lt_of_le hi with h | h
        · rw [← h]
          exact hb2
        · apply Nat.testBit_lt_two_pow
          exact Nat.lt_of_lt_of_le hlt (Nat.pow_le_pow_right (by decide) (by omega))
      obtain ⟨h1, h2, h3⟩ := ih hlt2
      have he : n + 1 - 1 - (1 + clzFrom n x) = n - 1 - clzFrom n x := by omega
      rw [he]
      exact ⟨by omega, h2, h3⟩

theorem highestNamedBelow_eq (name : List Char) (n idx : Nat) (hidx : idx < n)
    (hset : namesButton name idx = true)
    (hmax : ∀ j, idx < j → j < n → namesButton name j = false) :
    highestNamedBelow name n = some idx := by
  induction n with
  | zero => omega
  | succ n ih =>
    unfold highestNamedBelow
    by_cases hn : idx = n
    · subst hn
      rw [if_pos hset]
    · have hlt : idx < n := by omega
      rw [if_neg (by rw [hmax n hlt (Nat.lt_succ_self n)]; exact Bool.false_ne_true)]
      exact ih hlt (fun j h1 h2 => hmax j h1 (by omega))

theorem gba_index_spec (x : Nat) (hx : x &&& 0x3FF ≠ 0) :
    31 - builtin_clzl (x &&& 0x3FF) < 10 ∧
    (x &&& 0x3FF).testBit (31 - builtin_clzl (x &&& 0x3FF)) = true ∧
    ∀ j, 31 - builtin_clzl (x &&& 0x3FF) < j → (x &&& 0x3FF).testBit j = false := by
  have hlt : x &&& 0x3FF < 2 ^ 32 :=
    Nat.lt_of_le_of_lt Nat.and_le_right (by decide)
  obtain ⟨_, h2, h3⟩ := clzFrom_spec 32 (x &&& 0x3FF) hx hlt
  refine ⟨?_, h2, h3⟩
  by_contra hge
  have := and_0x3FF_testBit x (31 - builtin_clzl (x &&& 0x3FF)) (by omega)
  rw [show 31 - builtin_clzl (x &&& 0x3FF) = 32 - 1 - clzFrom 32 (x &&& 0x3FF) from rfl] at this
  rw [h2] at this
  exact Bool.noConfusion this
theorem highestNamed_take (name : List Char) (hG : parseButtons (some name) &&& 0x3FF ≠ 0) :
    highestNamedGbaButton (name.take 31) =
      some (31 - builtin_clzl (parseButtons (some name) &&& 0x3FF)) := by
  obtain ⟨h1, h2, h3⟩ := gba_index_spec (parseButtons (some name)) hG
  have hmask : ∀ j < 10, (0x3FF : Nat).testBit j = true := by decide
  have hbit : ∀ j < 10, namesButton (name.take 31) j =
      (parseButtons (some name) &&& 0x3FF).testBit j := by
    intro j hj
    rw [← parseButtonsSpec_testBit_names, ← parseButtons_eq_spec_take, Nat.testBit_and,
      hmask j hj, Bool.and_true]
  unfold highestNamedGbaButton
  apply highestNamedBelow_eq _ _ _ h1
  · rw [hbit _ h1, h2]
  · intro j hj1 hj2
    rw [hbit j hj2, h3 j hj1]

/-- C11 (amended): in section input, for a name without `+` with
M = parseButtons(value) ≠ 0 and G = parseButtons(name) & 0x3FF ≠ 0, the index
31 - clz(G) lies in 0..9, the callback returns 1, the entry of the 10-entry
buttonMaps at that index becomes M while every other entry and the rest of
the record stay as they were, and the index is that of the highest-numbered
GBA button named within the first 31 bytes of the name; for a name of at most
31 bytes that is the highest-numbered GBA button named on the left side. -/
theorem single_mapping_in_bounds (str2float : List Char → Nat) (config : OafConfig)
    (name value : List Char) (hlen : config.buttonMaps.length = 10)
    (hplus : '+' ∉ name) (hM : parseButtons (some value) ≠ 0)
    (hG : parseButtons (some name) &&& 0x3FF ≠ 0) :
    31 - builtin_clzl (parseButtons (some name) &&& 0x3FF) < 10 ∧
    highestNamedGbaButton (name.take 31) =
      some (31 - builtin_clzl (parseButtons (some name) &&& 0x3FF)) ∧
    (name.length ≤ 31 →
      highestNamedGbaButton name =
        some (31 - builtin_clzl (parseButtons (some name) &&& 0x3FF))) ∧
    (cfgIniCallback str2float config "input".toList name value).1 = 1 ∧
    (cfgIniCallback str2float config "input".toList name value).2.buttonMaps[
        31 - builtin_clzl (parseButtons (some name) &&& 0x3FF)]? =
      some (parseButtons (some value)) ∧
    (∀ i, i ≠ 31 - builtin_clzl (parseButtons (some name) &&& 0x3FF) →
      (cfgIniCallback str2float config "input".toList name value).2.buttonMaps[i]? =
        config.buttonMaps[i]?) ∧
    (cfgIniCallback str2float config "input".toList name value).2 =
      { config with
        buttonMaps := (cfgIniCallback str2float config "input".toList name value).2.buttonMaps } := by
  have hidx := (gba_index_spec (parseButtons (some name)) hG).1
  have hnot : ¬ strchrFound name '+' = true := fun h => hplus ((strchrFound_iff name '+').1 h)
  have hin : cfgInput config name value =
      { config with
        buttonMaps :=
          config.buttonMaps.set (31 - builtin_clzl (parseButtons (some name) &&& 0x3FF))
            (parseButtons (some value)) } := by
    unfold cfgInput
    simp only []
    rw [if_pos hM, if_pos hG, if_neg hnot]
  rw [cfgIniCallback_input, hin]
  refine ⟨hidx, highestNamed_take name hG, ?_, rfl, ?_, ?_, rfl⟩
  · intro hl
    have := highestNamed_take name hG
    rwa [List.take_of_length_le hl] at this
  · show (config.buttonMaps.set _ _)[_]? = _
    rw [List.getElem?_set, if_pos rfl, if_pos (by omega)]
  · intro i hi
    show (config.buttonMaps.set _ _)[i]? = _
    rw [List.getElem?_set, if_neg (fun h => hi h.symm)]

/-- Witness of C11 (amended): `R,L=X` on the initial record writes entry 9
(L, the highest GBA button named) with the bit of X. -/
theorem single_mapping_in_bounds_witness :
    31 - builtin_clzl (parseButtons (some "R,L".toList) &&& 0x3FF) = 9 ∧
    highestNamedGbaButton "R,L".toList =
      some (31 - builtin_clzl (parseButtons (some "R,L".toList) &&& 0x3FF)) ∧
    (cfgIniCallback (fun _ => 0) g_oafConfig "input".toList "R,L".toList
        "X".toList).2.buttonMaps[
        31 - builtin_clzl (parseButtons (some "R,L".toList) &&& 0x3FF)]? =
      some (parseButtons (some "X".toList)) ∧
    (cfgIniCallback (fun _ => 0) g_oafConfig "input".toList "R,L".toList
        "X".toList).2.buttonMaps = [0, 0, 0, 0, 0, 0, 0, 0, 0, 1024] :=
  ⟨by decide,
    (single_mapping_in_bounds (fun _ => 0) g_oafConfig "R,L".toList "X".toList (by decide)
      (by decide) (by decide) (by decide)).2.2.1 (by decide),
    (single_mapping_in_bounds (fun _ => 0) g_oafConfig "R,L".toList "X".toList (by decide)
      (by decide) (by decide) (by decide)).2.2.2.2.1,
    by decide⟩

/-- Counterexample to C11 as stated: the 34-byte left side `B,B,…,B,LEFT`
(no `+`) names the GBA buttons B and LEFT, the highest being LEFT (5); the
write happens, but at index 9 (L), because only the first 31 bytes
`B,B,…,B,L` are parsed. -/
theorem single_mapping_long_name_counterexample :
    '+' ∉ longLeftSide ∧ parseButtons (some "X".toList) ≠ 0 ∧
    parseButtons (some longLeftSide) &&& 0x3FF ≠ 0 ∧
    highestNamedGbaButton longLeftSide = some 5 ∧
    namesButton longLeftSide 9 = false ∧
    31 - builtin_clzl (parseButtons (some longLeftSide) &&& 0x3FF) = 9 ∧
    (cfgIniCallback (fun _ => 0) g_oafConfig "input".toList longLeftSide
        "X".toList).2.buttonMaps = [0, 0, 0, 0, 0, 0, 0, 0, 0, 1024] ∧
    ¬ (highestNamedGbaButton longLeftSide =
      some (31 - builtin_clzl (parseButtons (some longLeftSide) &&& 0x3FF))) := by
  decide

end OpenAgbFirm
